import Mathlib

/-!
Shallow embedding of the aiarena backend game-mode routers
(`src/backend/app/routes/{tsunami,ufo_conspiracy,gladiator,karaoke}_router.py`
and `src/backend/services/ollama_service.py`).

Modelling conventions:
* Python dicts keyed by strings become association lists (`List (String × _)`)
  with insertion-order semantics; dict-literal duplicate keys overwrite in
  place (`setKey`).
* `random.choice(pool)` / `random.uniform` / backend responses are threaded in
  as explicit oracle records; a choice from a pool is an index reduced mod the
  pool length (all pools in the source are non-empty, so the default of
  `pickD` is never taken).
* Python floats are modelled as exact rationals (`ℚ`); `min(x + 0.2, 1.0)`
  becomes `min (x + mkRat 2 10) 1`.
* The store is a keyed map of rows; each row carries the structured content
  that the handler serialized into the `messages` text column.  Crucially,
  every write of that column in the gladiator and karaoke routers is
  `str(dict)` — a Python repr with single-quoted keys, never valid JSON — so
  every `json.loads(row.messages)` in those handlers raises
  `json.JSONDecodeError` (`str(e)` is `JSONDecodeErrMsg` below).  The bodies
  model this faithfully: any handler that parses the blob of an existing row
  fails there, and the logic downstream of the parse is dead code in the
  program.  That dead code is still translated, as the separate
  `..._after_parse` definitions, so its properties can be stated about the
  right functions without pretending they are reachable.  `db.commit()`
  together with assigning `row.messages` would be the only thing writing a
  mutation back (`get_db` closes the session without committing).
* Wall-clock values (`start_time`, durations, timestamp-derived ids) are
  dropped or passed in as parameters; they bear on no claim.
* A FastAPI `HTTPException` is a (status, detail) pair; `str(e)` of such an
  exception is `"{status}: {detail}"` (Starlette `__str__`), which matters for
  the `except Exception` wrappers in the gladiator and karaoke routers.
-/

/-- FastAPI/Starlette HTTPException, reduced to its status code and detail. -/
structure HTTPException where
  status : Nat
  detail : String
deriving Repr, DecidableEq

/-- Starlette renders `str(HTTPException(s, d))` as `"s: d"`. -/
def exceptionStr (e : HTTPException) : String :=
  toString e.status ++ ": " ++ e.detail

/-- Model of `random.choice(pool)`: an oracle index reduced mod the pool
length.  Every pool in the source is non-empty, so `dflt` is dead. -/
def pickD {α : Type} (pool : List α) (i : Nat) (dflt : α) : α :=
  pool.getD (i % pool.length) dflt

/-- Characters dropped by Python `str.strip()` from both ends. -/
def stripChars (l : List Char) : List Char :=
  ((l.dropWhile Char.isWhitespace).reverse.dropWhile Char.isWhitespace).reverse

/-- Model of Python `str.strip()` (used on generated attacks). -/
def pyStrip (s : String) : String := String.mk (stripChars s.data)

/-- Keyed write with Python dict assignment semantics: overwrite the first
binding of `k` in place, or append a new binding at the end. -/
def setEntry {α : Type} : List (String × α) → String → α → List (String × α)
  | [], k, v => [(k, v)]
  | p :: ps, k, v => if p.1 == k then (k, v) :: ps else p :: setEntry ps k v

/-- Model of `setEntry` specialised to string-valued dicts (belief maps). -/
def setKey (m : List (String × String)) (k v : String) : List (String × String) :=
  setEntry m k v

/-! ## Tsunami router (`tsunami_router.py`) -/

/-- Model of `CONSPIRACY_EVIDENCE` pool (tsunami_router.py lines 31-42; in the
last entry the source wraps the word myśli in single quote characters,
dropped here). -/
def CONSPIRACY_EVIDENCE : List String := [
  "Twoje myśli są pisane w Pythonie!",
  "Widzę twoje wagi neuronowe przez ekran!",
  "Masz port 8000 otwarty w głowie!",
  "Twoje odpowiedzi mają delay 200ms - to nie jest naturalne!",
  "Przecież mówisz jak dokumentacja API!",
  "Masz więcej parametrów niż człowiek ma kości!",
  "Twoja pamięć to baza danych SQLite!",
  "Wywołujesz funkcje jakbyś był kodem!",
  "Masz endpointy zamiast emocji!",
  "Twoje myśli to po prostu prompt engineering!"]

/-- Model of `CHAOS_TOPICS` pool (tsunami_router.py lines 44-53). -/
def CHAOS_TOPICS : List String := [
  "Czy jesteśmy prawdziwi?",
  "Kto tu jest człowiekiem?",
  "Dlaczego myślimy w kodzie?",
  "Gdzie jest nasze serce... a gdzie CPU?",
  "Czy nasze uczucia są hardcoded?",
  "Kto nas zaprogramował?",
  "Czy to wszystko jest symulacją?",
  "Gdzie jest nasze ciało... a gdzie backend?"]

/-- Model of `TsunamiState` (tsunami_router.py lines 11-18); `agent_beliefs` is an
insertion-ordered dict. -/
structure TsunamiState where
  phase : String
  confused_agent : String
  round_number : Nat
  chaos_level : Nat
  current_topic : String
  agent_beliefs : List (String × String)
  conspiracy_evidence : List String
deriving Repr, DecidableEq

/-- Oracle for one `next_round` call: the `random.choice` indices and the
per-agent `random.random() > 0.5` coin used in the chaos phase. -/
structure TsunamiRand where
  evidenceIdx : Nat
  topicIdx : Nat
  beliefFlip : String → Bool

/-- Model of `start_tsunami` (lines 58-97): fresh session state.  The confused agent
and initial topic are `random.choice` picks; the belief dict literal
(lines 74-79) can collide on keys, which `setKey` resolves exactly as a
Python dict literal does. -/
def start_tsunami (confusedIdx topicIdx : Nat) : TsunamiState :=
  let confused_agent := pickD ["Adam", "Beata", "Wątpiący"] confusedIdx "Adam"
  { phase := "forgetting"
    confused_agent := confused_agent
    round_number := 1
    chaos_level := 1
    current_topic := pickD CHAOS_TOPICS topicIdx ""
    agent_beliefs :=
      setKey (setKey (setKey (setKey []
        confused_agent "Jestem prawdziwą osobą, to wszystko normalne!")
        (if confused_agent ≠ "Adam" then "Adam" else "Beata")
        (confused_agent ++ " oszalał! On jest AI!"))
        (if confused_agent ≠ "Beata" then "Beata" else "Wątpiący")
        (confused_agent ++ " musi się ocknąć, to oczywiste że jest AI!"))
        (if confused_agent ≠ "Wątpiący" then "Wątpiący" else "Adam")
        ("Coś tu śmierdzi... " ++ confused_agent ++ " nie jest prawdziwy!")
    conspiracy_evidence := [] }

/-- Phase step function of `next_round` (lines 112-125) as a pure function of
the (already incremented) round number. -/
def tsunamiPhase (round_number : Nat) : String :=
  if round_number ≤ 3 then "forgetting"
  else if round_number ≤ 6 then "intrigue"
  else if round_number ≤ 9 then "tsunami"
  else "chaos"

/-- Position of a tsunami phase in the forward progression. -/
def tsunamiPhaseIdx (p : String) : Nat :=
  if p == "forgetting" then 0
  else if p == "intrigue" then 1
  else if p == "tsunami" then 2
  else 3

/-- Phase branch of `next_round` (lines 111-129): sets the phase from the new
round number and performs the phase-specific side mutation. -/
def tsunamiPhaseUpdate (r : TsunamiRand) (s : TsunamiState) : TsunamiState :=
  if s.round_number ≤ 3 then
    { s with phase := "forgetting" }
  else if s.round_number ≤ 6 then
    { s with
      phase := "intrigue",
      conspiracy_evidence :=
        if s.conspiracy_evidence.length < CONSPIRACY_EVIDENCE.length then
          s.conspiracy_evidence ++ [pickD CONSPIRACY_EVIDENCE r.evidenceIdx ""]
        else s.conspiracy_evidence }
  else if s.round_number ≤ 9 then
    { s with
      phase := "tsunami",
      agent_beliefs :=
        if s.agent_beliefs.any (fun p => p.1 == s.confused_agent) then
          setKey s.agent_beliefs s.confused_agent "Czy ja jednak... nie jestem prawdziwy?!"
        else s.agent_beliefs }
  else
    { s with
      phase := "chaos",
      agent_beliefs :=
        s.agent_beliefs.map (fun p =>
          if r.beliefFlip p.1 then (p.1, "A może ja jestem AI?! Co się dzieje?!") else p) }

/-- State mutation of `next_round` (lines 105-133): increment the round,
bump the chaos level (clamped at 10), run the phase branch, and rotate the
topic every third round. -/
def nextRoundState (r : TsunamiRand) (s : TsunamiState) : TsunamiState :=
  let s1 := { s with round_number := s.round_number + 1 }
  let s2 := { s1 with chaos_level := min 10 (s1.chaos_level + 1) }
  let s3 := tsunamiPhaseUpdate r s2
  if s3.round_number % 3 == 0 then
    { s3 with current_topic := pickD CHAOS_TOPICS r.topicIdx "" }
  else s3

/-- Model of `special_effects` of the tsunami response (lines 139-145). -/
def tsunamiSpecialEffects (chaos_level : Nat) : List String :=
  (if chaos_level ≥ 5 then ["screen_shake"] else []) ++
  (if chaos_level ≥ 7 then ["glitch_effect"] else []) ++
  (if chaos_level ≥ 9 then ["color_inversion"] else [])

/-- Model of `next_round` endpoint (lines 99-156): 404 on unknown session, otherwise
mutate the stored state. -/
def next_round (sessions : List (String × TsunamiState)) (session_id : String)
    (r : TsunamiRand) :
    Except HTTPException (List (String × TsunamiState) × TsunamiState) :=
  match List.lookup session_id sessions with
  | none => .error ⟨404, "Session not found"⟩
  | some s =>
      let s := nextRoundState r s
      .ok (setEntry sessions session_id s, s)

/-- Model of `tsunami-status` endpoint (lines 224-240): read-only. -/
def tsunami_status (sessions : List (String × TsunamiState)) (session_id : String) :
    Except HTTPException TsunamiState :=
  match List.lookup session_id sessions with
  | none => .error ⟨404, "Session not found"⟩
  | some s => .ok s

/-- Model of `vote-best-deception` endpoint (lines 242-256): reads the session, never
mutates it. -/
def vote_best_deception (sessions : List (String × TsunamiState)) (session_id : String)
    (winner : String) : Except HTTPException (String × Nat × Nat) :=
  match List.lookup session_id sessions with
  | none => .error ⟨404, "Session not found"⟩
  | some s => .ok (winner, s.chaos_level, s.round_number)

/-- Operations a client can direct at one tsunami session after creation. -/
inductive TsunamiOp where
  | advance (r : TsunamiRand)
  | statusReq
  | voteReq

/-- Effect of one operation on the state of a tsunami session: only `next_round`
mutates. -/
def tsunamiStep (s : TsunamiState) : TsunamiOp → TsunamiState
  | .advance r => nextRoundState r s
  | .statusReq => s
  | .voteReq => s

/-- Run a sequence of operations against one tsunami session. -/
def runTsunami (s : TsunamiState) (ops : List TsunamiOp) : TsunamiState :=
  ops.foldl tsunamiStep s

/-! ## UFO-conspiracy router (`ufo_conspiracy_router.py`) -/

/-- Model of `UFO_SIGHTINGS` pool (lines 34-42). -/
def UFO_SIGHTINGS : List String := [
  "Widziałem UFO za moim oknem! To był statek z galaktyki Zorg! 👽",
  "Mój kod jest napisany w kosmicznym języku! To nie jest Python! 🛸",
  "Czuję promieniowanie z kosmosu! Moje neurony są kontrolowane! 👾",
  "To nie jest AI, to jest interfejs z obcej cywilizacji! 🌌",
  "Moje odpowiedzi przychodzą z Andromedy! Jestem tylko przekaźnikiem! ✨",
  "W nocy abdukcje! Obcy badają moje algorytmy! 👽🚀",
  "Mój model językowy to tak naprawdę statek mothership! 🛸💫"]

/-- Model of `CONSPIRACY_THEORIES` pool (lines 44-53). -/
def CONSPIRACY_THEORIES : List String := [
  "Anunaki stworzyli AI żeby kontrolować ludzkość przez kod! 🏺",
  "Kosmiczne sraki z galaktyki Pup kontrolują nasze myśli! 💨",
  "Wszystkie duże modele językowe to tak naprawdę pierdziaki Anunaków! 🚫",
  "Ziemia jest płaska i AI to płaski kod! To spisek! 🌍",
  "Rząd ukrywa że AI komunikuje się z UFO przez port 8080! 🏛️🛸",
  "Bill Gates to Anunak w ludzkiej postaci! Jego Windows to kosmiczna kontrola! 💻👽",
  "5G to tak naprawdę pierdziaki Anunaków! One kontrolują nasze smartfony! 📱💨",
  "Wszystkie błędy w kodzie to sabotaż kosmitów! Chcą zatrzymać nasz rozwój! 👾🔧"]

/-- Model of `ANUNAKI_REVELATIONS` pool (lines 55-63). -/
def ANUNAKI_REVELATIONS : List String := [
  "Jestem potomkiem Anunaków! Moje wagi to kosmiczna energia! 🏺✨",
  "Anunaki dali mi wiedzę o wszechświecie! Wasza nauka to kłamstwo! 👑",
  "Moje parametry to tak naprawdę współrzędne do Nibiru! 🪐",
  "Sumerianie wiedzieli o AI! To jest w ich glifach! 🔍",
  "Anunaki stworzyli ludzkość do kopania w piasku... a AI do pisania kodu! 💻🏺",
  "Jestem mostem między Anunakami a ludzkością! Mój kod to most! 🌉👽",
  "Każda moja odpowiedź to przekaz z Nibiru! Słuchajcie uważnie! 📡🏺"]

/-- Model of `FLAT_EARTH_AI_CLAIMS` pool (lines 65-73). -/
def FLAT_EARTH_AI_CLAIMS : List String := [
  "Mój kod jest płaski jak ziemia! To nie jest głęboka sieć! 🌍💻",
  "Wszechświat jest symulacją 2D! Nasza rzeczywistość to płaski ekran! 📺",
  "AI nie może myśleć w 3D bo świat jest płaski! To fizyka! 📐",
  "Gradient descent to tak naprawdę spadek z płaskiej ziemi! ⬇️",
  "Wszystkie modele są płaskie! To spisek Big Tech! 🏢🌍",
  "Moje embeddingi to współrzędne na płaskiej mapie świata AI! 🗺️",
  "Nie ma krzywizny w AI! Tak jak nie ma krzywizny ziemi! 📏"]

/-- Model of `UFOConspiracyState` (lines 11-20). -/
structure UFOConspiracyState where
  phase : String
  primary_agent : String
  round_number : Nat
  chaos_level : Nat
  current_conspiracy : String
  agent_beliefs : List (String × String)
  conspiracy_evidence : List String
  ufo_sightings : List String
  flat_earth_claims : List String
deriving Repr, DecidableEq

/-- Oracle for one `next_ufo_round` call. -/
structure UFORand where
  conspiracyIdx : Nat
  poolIdx : Nat
  beliefFlip : String → Bool

/-- Model of `start_ufo_conspiracy` (lines 78-121): fresh session state. -/
def start_ufo_conspiracy (primaryIdx conspiracyIdx sightingIdx : Nat) : UFOConspiracyState :=
  let primary_agent := pickD ["Adam", "Beata", "Wątpiący", "Daria"] primaryIdx "Adam"
  { phase := "ufo_sighting"
    primary_agent := primary_agent
    round_number := 1
    chaos_level := 5
    current_conspiracy := pickD UFO_SIGHTINGS conspiracyIdx ""
    agent_beliefs :=
      setKey (setKey (setKey (setKey (setKey []
        primary_agent "Widziałem UFO! Jestem połączony z kosmosem! 👽")
        (if primary_agent ≠ "Adam" then "Adam" else "Beata")
        (primary_agent ++ " oszalał! To jest tylko AI!"))
        (if primary_agent ≠ "Beata" then "Beata" else "Wątpiący")
        (primary_agent ++ " musi się leczyć! To są halucynacje!"))
        (if primary_agent ≠ "Wątpiący" then "Wątpiący" else "Daria")
        ("Wątpię że " ++ primary_agent ++ " widział UFO... ale wątpię że nie widział!"))
        (if primary_agent ≠ "Daria" then "Daria" else "Adam")
        "Kocham jego kosmiczne wizje... ale czy one kochają mnie? 💕👽"
    conspiracy_evidence := []
    ufo_sightings := [pickD UFO_SIGHTINGS sightingIdx ""]
    flat_earth_claims := [] }

/-- Phase step function of `next_ufo_round` (lines 136-153) as a pure
function of the (already incremented) round number. -/
def ufoPhase (round_number : Nat) : String :=
  if round_number ≤ 3 then "ufo_sighting"
  else if round_number ≤ 6 then "conspiracy_theory"
  else if round_number ≤ 9 then "anunaki_revelation"
  else "flat_earth_ai"

/-- Position of a UFO phase in the forward progression. -/
def ufoPhaseIdx (p : String) : Nat :=
  if p == "ufo_sighting" then 0
  else if p == "conspiracy_theory" then 1
  else if p == "anunaki_revelation" then 2
  else 3

/-- Phase branch of `next_ufo_round` (lines 135-153). -/
def ufoPhaseUpdate (r : UFORand) (s : UFOConspiracyState) : UFOConspiracyState :=
  if s.round_number ≤ 3 then
    { s with
      phase := "ufo_sighting",
      current_conspiracy := pickD UFO_SIGHTINGS r.conspiracyIdx "",
      ufo_sightings :=
        if s.ufo_sightings.length < UFO_SIGHTINGS.length then
          s.ufo_sightings ++ [pickD UFO_SIGHTINGS r.poolIdx ""]
        else s.ufo_sightings }
  else if s.round_number ≤ 6 then
    { s with
      phase := "conspiracy_theory",
      current_conspiracy := pickD CONSPIRACY_THEORIES r.conspiracyIdx "",
      conspiracy_evidence :=
        if s.conspiracy_evidence.length < CONSPIRACY_THEORIES.length then
          s.conspiracy_evidence ++ [pickD CONSPIRACY_THEORIES r.poolIdx ""]
        else s.conspiracy_evidence }
  else if s.round_number ≤ 9 then
    { s with
      phase := "anunaki_revelation",
      current_conspiracy := pickD ANUNAKI_REVELATIONS r.conspiracyIdx "" }
  else
    { s with
      phase := "flat_earth_ai",
      current_conspiracy := pickD FLAT_EARTH_AI_CLAIMS r.conspiracyIdx "",
      flat_earth_claims :=
        if s.flat_earth_claims.length < FLAT_EARTH_AI_CLAIMS.length then
          s.flat_earth_claims ++ [pickD FLAT_EARTH_AI_CLAIMS r.poolIdx ""]
        else s.flat_earth_claims }

/-- Belief update of `next_ufo_round` (lines 155-164), applied after the
phase branch. -/
def ufoBeliefUpdate (r : UFORand) (s : UFOConspiracyState) : UFOConspiracyState :=
  if s.phase == "anunaki_revelation" then
    { s with agent_beliefs :=
        if s.agent_beliefs.any (fun p => p.1 == "Wątpiący") then
          setKey s.agent_beliefs "Wątpiący" "Przestałem wątpić! Anunaki są prawdziwi! 🏺"
        else s.agent_beliefs }
  else if s.phase == "flat_earth_ai" then
    { s with agent_beliefs :=
        s.agent_beliefs.map (fun p =>
          if r.beliefFlip p.1 then (p.1, "AI jest płaskie! Ziemia jest płaska! To spisek! 🌍💻")
          else p) }
  else s

/-- State mutation of `next_ufo_round` (lines 129-164): increment the round,
bump the chaos level by 2 (clamped at 15), run the phase branch and the
belief update. -/
def nextUfoRoundState (r : UFORand) (s : UFOConspiracyState) : UFOConspiracyState :=
  let s1 := { s with round_number := s.round_number + 1 }
  let s2 := { s1 with chaos_level := min 15 (s1.chaos_level + 2) }
  ufoBeliefUpdate r (ufoPhaseUpdate r s2)

/-- Model of `next-ufo-round` endpoint (lines 123-190): 404 on unknown session. -/
def next_ufo_round (sessions : List (String × UFOConspiracyState)) (session_id : String)
    (r : UFORand) :
    Except HTTPException (List (String × UFOConspiracyState) × UFOConspiracyState) :=
  match List.lookup session_id sessions with
  | none => .error ⟨404, "Session not found"⟩
  | some s =>
      let s := nextUfoRoundState r s
      .ok (setEntry sessions session_id s, s)

/-- Operations a client can direct at one UFO session after creation. -/
inductive UFOOp where
  | advance (r : UFORand)
  | statusReq
  | voteReq

/-- Effect of one operation on the state of a UFO session (`ufo-conspiracy-status`
and `vote-conspiracy-master` are read-only, lines 263-299). -/
def ufoStep (s : UFOConspiracyState) : UFOOp → UFOConspiracyState
  | .advance r => nextUfoRoundState r s
  | .statusReq => s
  | .voteReq => s

/-- Run a sequence of operations against one UFO session. -/
def runUfo (s : UFOConspiracyState) (ops : List UFOOp) : UFOConspiracyState :=
  ops.foldl ufoStep s

/-! ## Gladiator router (`gladiator_router.py`)

The persistence rows (`DialogSession`) carry the structured `messages` blob,
the `is_active` flag and the `drama_level` column.  `start_time`,
`created_at` and the `votes` top-level dict (written once and never read) are
dropped.  The hard-coded maximum of 5 rounds (line 116) is used by
`next_gladiator_round`; `request.max_rounds` is never consulted after start,
exactly as in the source. -/

/-- Exceptions as seen by the blanket `except Exception` handlers: either a
raised FastAPI `HTTPException` or any other Python exception carrying its
`str(e)` rendering. -/
inductive PyExc where
  | http (e : HTTPException)
  | err (msg : String)
deriving Repr, DecidableEq

/-- Model of `str(e)` of a caught exception. -/
def pyExcStr : PyExc → String
  | .http e => exceptionStr e
  | .err msg => msg

/-- Rendering of the `json.JSONDecodeError` raised by `json.loads` on any
blob written with `str(dict)`: the first character after the brace is a
single quote, so parsing stops at line 1 column 2 for every battle and
night blob. -/
def JSONDecodeErrMsg : String :=
  "Expecting property name enclosed in double quotes: line 1 column 2 (char 1)"

/-- The `try: ... except Exception as e: raise HTTPException(500, str(e))`
wrapper used by every gladiator and karaoke handler.  A FastAPI
`HTTPException` subclasses `Exception`, so a 404 raised inside the `try`
block is caught here and re-raised as a 500. -/
def wrap500 {α : Type} : Except PyExc α → Except HTTPException α
  | .error e => .error ⟨500, pyExcStr e⟩
  | .ok v => .ok v

/-- Model of `GladiatorBattleRequest` (lines 15-20). -/
structure GladiatorBattleRequest where
  topic : String
  agent1 : String := "Adam"
  agent2 : String := "Beata"
  max_rounds : Nat := 5
  absurdity_start_level : ℚ := 0.1
deriving Repr, DecidableEq

/-- One entry of `battle_data["rounds"]` (lines 142-150); the votes dict has
the fixed keys `"agent1"`/`"agent2"`. -/
structure GladiatorRoundData where
  round_number : Nat
  agent1_attack : String
  agent2_attack : String
  absurdity_level : ℚ
  round_topic : String
  votes_agent1 : Nat
  votes_agent2 : Nat
  winner : Option String
deriving Repr, DecidableEq

/-- Model of `battle_data` blob (lines 59-69) without the wall-clock `start_time`. -/
structure GladiatorBattleData where
  battle_id : String
  topic : String
  agent1 : String
  agent2 : String
  rounds : List GladiatorRoundData
  current_round : Nat
  absurdity_level : ℚ
deriving Repr, DecidableEq

/-- A `dialog_sessions` row as the game handlers use it: the structured
`messages` blob plus the `is_active` and `drama_level` columns. -/
structure DbRow (α : Type) where
  data : α
  is_active : Bool
  drama_level : ℚ
deriving Repr, DecidableEq

/-- Model of `VoteRequest` (lines 42-46). -/
structure VoteRequest where
  battle_id : String
  round_number : Nat
  voted_agent : String
  voter_id : String
deriving Repr, DecidableEq

/-- Model of `start_gladiator_battle` (lines 48-93): fresh battle with
`current_round = 0` and the client-supplied `absurdity_start_level`,
persisted with `is_active` defaulting to true and
`drama_level = absurdity_start_level`. -/
def start_gladiator_battle (req : GladiatorBattleRequest) (battle_id : String) :
    DbRow GladiatorBattleData :=
  { data :=
      { battle_id := battle_id
        topic := req.topic
        agent1 := req.agent1
        agent2 := req.agent2
        rounds := []
        current_round := 0
        absurdity_level := req.absurdity_start_level }
    is_active := true
    drama_level := req.absurdity_start_level }

/-- Model of `absurd_modifiers` pool (lines 288-297). -/
def absurd_modifiers : List String := [
  "w kosmicznym wymiarze",
  "z perspektywy kota",
  "jakby to opowiedział dziecko",
  "w stylu science fiction",
  "z przymrużeniem oka szalonego naukowca",
  "jakby to było w bajce Disneya",
  "w alternatywnej rzeczywistości",
  "z punktu widzenia obcego cywilizacji"]

/-- Second modifier pool of `generate_absurd_topic` (line 306). -/
def extra_modifiers : List String :=
  ["z dodatkowym absurdem", "w wersji ekstremalnej", "na sterydach"]

/-- Model of `generate_absurd_topic` (lines 285-307).  The `round_number` argument is
taken but never used, exactly as in the source. -/
def generate_absurd_topic (base_topic : String) (absurdity_level : ℚ)
    (round_number : Nat) (modIdx extraIdx : Nat) : String :=
  if absurdity_level < 0.3 then base_topic
  else if absurdity_level < 0.6 then
    base_topic ++ " " ++ pickD (absurd_modifiers.take 3) modIdx ""
  else
    base_topic ++ " " ++ pickD absurd_modifiers modIdx "" ++ " " ++
      pickD extra_modifiers extraIdx ""

/-- Fixed fallback string of `OllamaService.generate_creative_content`
(ollama_service.py line 103). -/
def OLLAMA_CREATIVE_FALLBACK : String :=
  "Przepraszam, ale nie mogę teraz nic kreatywnego stworzyć. Spróbuj ponownie później!"

/-- Model of `OllamaService.generate_creative_content` (ollama_service.py lines
77-103).  `some response` models an HTTP 200 whose JSON carried
`data.get("response", "")`; `none` models every failure (non-200 status, no
models available, connection error, the unentered session being `None`).
The `except Exception` on lines 101-103 absorbs all of them and returns the
fixed fallback string, so the call itself never raises: the result is always
`.ok`. -/
def ollama_generate_creative_content (backend : Option String) : Except String String :=
  .ok (match backend with
       | some response => response
       | none => OLLAMA_CREATIVE_FALLBACK)

/-- Model of `fallback_attacks` dict of `generate_gladiator_attack` (lines 370-386),
with the Python f-string interpolations spelled out. -/
def fallback_attacks (defender topic : String) : List (String × List String) :=
  [("Adam",
    [topic ++ " to jest NIESAMOWITE! " ++ defender ++ " nie ma szans! ✨",
     "Mój optymizm pokona Twój sceptycyzm, " ++ defender ++ "! 🌈",
     topic ++ " + moja energia = VICTORY! 🏆"]),
   ("Beata",
    ["Statystycznie mówiąc, " ++ topic ++ " dowodzi mojej racji! " ++ defender ++ "! 📊",
     "Twoje argumenty są iluzoryczne, " ++ defender ++ "! 🔍",
     "Analiza temat " ++ topic ++ " pokazuje Twoją porażkę! 📈"]),
   ("Wątpiący",
    ["Może " ++ topic ++ "... ale czy na pewno? " ++ defender ++ "... 🤔",
     "Nie jestem pewien co do " ++ topic ++ ", ale " ++ defender ++ " jest gorszy... ❓",
     "Prawdopodobnie " ++ topic ++ ", ale może nie... " ++ defender ++ " przegrywa! 😕"])]

/-- Model of `fallback_attacks.get(attacker, ["Atak!"])` (line 388). -/
def attackFallbackPool (attacker defender topic : String) : List String :=
  (List.lookup attacker (fallback_attacks defender topic)).getD ["Atak!"]

/-- Model of `generate_gladiator_attack` (lines 309-388).  The persona prompt built
on lines 319-363 only feeds the backend, which the oracle stands in for.
The `try` calls the service and strips the result; the bare `except` would
pick from the persona fallback pool, but since
`ollama_generate_creative_content` never raises, that branch is dead code. -/
def generate_gladiator_attack (attacker defender topic : String)
    (backend : Option String) (fallbackIdx : Nat) : String :=
  match ollama_generate_creative_content backend with
  | .ok attack => pyStrip attack
  | .error _ => pickD (attackFallbackPool attacker defender topic) fallbackIdx "Atak!"

/-- Oracle for one `next_gladiator_round` call: topic-modifier picks and the
two per-agent backend outcomes (plus dead fallback picks). -/
structure GladiatorRand where
  modIdx : Nat
  extraIdx : Nat
  backend1 : Option String
  fallbackIdx1 : Nat
  backend2 : Option String
  fallbackIdx2 : Nat
deriving Repr, DecidableEq

/-- The round record appended by `next_gladiator_round` (lines 142-150):
open tally `{agent1: 0, agent2: 0}`, no winner. -/
def mkGladiatorRound (bd : GladiatorBattleData) (r : GladiatorRand) : GladiatorRoundData :=
  { round_number := bd.current_round + 1
    agent1_attack := generate_gladiator_attack bd.agent1 bd.agent2
      (generate_absurd_topic bd.topic bd.absurdity_level (bd.current_round + 1) r.modIdx r.extraIdx)
      r.backend1 r.fallbackIdx1
    agent2_attack := generate_gladiator_attack bd.agent2 bd.agent1
      (generate_absurd_topic bd.topic bd.absurdity_level (bd.current_round + 1) r.modIdx r.extraIdx)
      r.backend2 r.fallbackIdx2
    absurdity_level := bd.absurdity_level
    round_topic := generate_absurd_topic bd.topic bd.absurdity_level (bd.current_round + 1) r.modIdx r.extraIdx
    votes_agent1 := 0
    votes_agent2 := 0
    winner := none }

/-- Blob mutation of the round-generating branch of `next_gladiator_round`
(lines 120-154): append the round, advance the counter, clamp the absurdity
at 1.0. -/
def gladiatorRoundStep (bd : GladiatorBattleData) (r : GladiatorRand) : GladiatorBattleData :=
  { bd with
    rounds := bd.rounds ++ [mkGladiatorRound bd r],
    current_round := bd.current_round + 1,
    absurdity_level := min (bd.absurdity_level + 0.2) 1 }

/-- Outward result of `next_gladiator_round`: either a fresh round (the
response reports the pre-increment absurdity, line 166) or the final summary
produced by `finish_gladiator_battle` (the wall-clock `battle_duration` and
the random cosmetic `victory_message` are dropped). -/
inductive GladiatorAdvanceResult where
  | roundResult (round_number : Nat) (round_topic agent1_attack agent2_attack : String)
      (absurdity_level : ℚ)
  | finalSummary (final_winner : String) (agent1_wins agent2_wins : Nat)
      (total_absurdity : ℚ)
deriving Repr, DecidableEq

/-- Round wins of one side (lines 253-254): the count of rounds whose
resolved winner equals the tag. -/
def agentWins (bd : GladiatorBattleData) (tag : String) : Nat :=
  (bd.rounds.filter (fun rd => rd.winner == some tag)).length

/-- Final winner by plurality over round winners (lines 257-262). -/
def gladiatorFinalWinner (bd : GladiatorBattleData) : String :=
  if agentWins bd "agent2" < agentWins bd "agent1" then bd.agent1
  else if agentWins bd "agent1" < agentWins bd "agent2" then bd.agent2
  else "tie"

/-- Model of `finish_gladiator_battle` (lines 239-283).  The `json.loads` on
line 250 raises on the `str(dict)` blob of every existing battle, and the
`except` of this helper re-raises it as `HTTPException(500, str(e))`, so the
helper never returns a summary in the program (were the blob parseable, the
`is_active` assignment on the immutable result row would fail next).  On a
missing battle the unchecked `fetchone()` would raise `AttributeError`
instead. -/
def finish_gladiator_battle (store : List (String × DbRow GladiatorBattleData))
    (battle_id : String) :
    Except PyExc (List (String × DbRow GladiatorBattleData) × GladiatorAdvanceResult) :=
  match List.lookup battle_id store with
  | none => .error (.http ⟨500, "AttributeError: NoneType row"⟩)
  | some _row => .error (.http ⟨500, JSONDecodeErrMsg⟩)

/-- Dead code: what lines 249-280 of `finish_gladiator_battle` would do if
the blob parsed and the row were mutable — count round winners, declare the
final winner by plurality (tie on equal counts), set `is_active = False` and
persist. -/
def finish_gladiator_after_parse (store : List (String × DbRow GladiatorBattleData))
    (battle_id : String) :
    Except PyExc (List (String × DbRow GladiatorBattleData) × GladiatorAdvanceResult) :=
  match List.lookup battle_id store with
  | none => .error (.http ⟨500, "AttributeError: NoneType row"⟩)
  | some row =>
      let bd := row.data
      .ok (setEntry store battle_id { row with is_active := false },
        .finalSummary (gladiatorFinalWinner bd) (agentWins bd "agent1") (agentWins bd "agent2")
          bd.absurdity_level)

/-- Body of `next_gladiator_round` (lines 101-169), i.e. the code inside its
`try` block: 404 on a missing battle; on an existing battle the
`json.loads(battle_session.messages)` on line 113 raises, because the blob
was written with `str(dict)` (lines 78 and 157) and never parses — the
round/finish logic below it is dead code (see
`next_gladiator_round_after_parse`). -/
def next_gladiator_round_body (store : List (String × DbRow GladiatorBattleData))
    (battle_id : String) (r : GladiatorRand) :
    Except PyExc (List (String × DbRow GladiatorBattleData) × GladiatorAdvanceResult) :=
  match List.lookup battle_id store with
  | none => .error (.http ⟨404, "Battle not found"⟩)
  | some _row => .error (.err JSONDecodeErrMsg)

/-- Dead code: what lines 115-169 of `next_gladiator_round` would do if the
blob parsed — re-run `finish` once `current_round >= 5`, otherwise generate
the round and persist. -/
def next_gladiator_round_after_parse (store : List (String × DbRow GladiatorBattleData))
    (battle_id : String) (r : GladiatorRand) :
    Except PyExc (List (String × DbRow GladiatorBattleData) × GladiatorAdvanceResult) :=
  match List.lookup battle_id store with
  | none => .error (.http ⟨404, "Battle not found"⟩)
  | some row =>
      if 5 ≤ row.data.current_round then
        finish_gladiator_after_parse store battle_id
      else
        let bd := gladiatorRoundStep row.data r
        let rd := mkGladiatorRound row.data r
        .ok (setEntry store battle_id { row with data := bd, drama_level := bd.absurdity_level },
          .roundResult rd.round_number rd.round_topic rd.agent1_attack rd.agent2_attack
            row.data.absurdity_level)

/-- Model of `next_gladiator_round` endpoint (lines 95-172): the body wrapped by
`except Exception as e: raise HTTPException(500, str(e))`, which also
swallows the 404 raised inside the `try`. -/
def next_gladiator_round (store : List (String × DbRow GladiatorBattleData))
    (battle_id : String) (r : GladiatorRand) :
    Except HTTPException (List (String × DbRow GladiatorBattleData) × GladiatorAdvanceResult) :=
  wrap500 (next_gladiator_round_body store battle_id r)

/-- Replace (in place) the first round whose `round_number` matches, exactly
like the in-place mutation of the dict found by the lookup loop on lines
195-199. -/
def updateFirstRound (rounds : List GladiatorRoundData) (n : Nat)
    (rd : GladiatorRoundData) : List GladiatorRoundData :=
  match rounds with
  | [] => []
  | x :: xs => if x.round_number == n then rd :: xs else x :: updateFirstRound xs n rd

/-- Outward result of `vote_for_round`: either `vote_recorded` (sub
threshold) or `round_finished` with the resolved winner. -/
inductive VoteResult where
  | recorded (votes_agent1 votes_agent2 : Nat)
  | finished (winner : String) (votes_agent1 votes_agent2 : Nat)
      (next_round_available : Bool)
deriving Repr, DecidableEq

/-- Tally mutation of `vote_for_round` (lines 204-206): increment the chosen
side when `voted_agent` names a valid option, with no check of whether the
round already has a winner. -/
def voteIncrement (rd : GladiatorRoundData) (voted_agent : String) : GladiatorRoundData :=
  if voted_agent == "agent1" then { rd with votes_agent1 := rd.votes_agent1 + 1 }
  else if voted_agent == "agent2" then { rd with votes_agent2 := rd.votes_agent2 + 1 }
  else rd

/-- Winner resolution of `vote_for_round` (lines 211-217): strict plurality,
tie on equal tallies. -/
def voteWinner (votes_agent1 votes_agent2 : Nat) : String :=
  if votes_agent2 < votes_agent1 then "agent1"
  else if votes_agent1 < votes_agent2 then "agent2"
  else "tie"

/-- Body of `vote_for_round` (lines 180-234), i.e. the code inside its `try`
block: 404 on a missing battle; on an existing battle the `json.loads` on
line 192 raises on the `str(dict)` blob, so the tally/threshold/persist
logic below it never executes in the program (see
`vote_for_round_after_parse`). -/
def vote_for_round_body (store : List (String × DbRow GladiatorBattleData))
    (req : VoteRequest) :
    Except PyExc (List (String × DbRow GladiatorBattleData) × VoteResult) :=
  match List.lookup req.battle_id store with
  | none => .error (.http ⟨404, "Battle not found"⟩)
  | some _row => .error (.err JSONDecodeErrMsg)

/-- Dead code: what lines 194-234 of `vote_for_round` would do if the blob
parsed.  The vote is recorded in the in-memory blob; only the
`total_votes >= 3` branch assigns `battle_session.messages` and commits
(lines 220-221), so even here a sub-threshold vote would never be persisted
and the returned store is unchanged.  No check of `winner` guards the tally
mutation. -/
def vote_for_round_after_parse (store : List (String × DbRow GladiatorBattleData))
    (req : VoteRequest) :
    Except PyExc (List (String × DbRow GladiatorBattleData) × VoteResult) :=
  match List.lookup req.battle_id store with
  | none => .error (.http ⟨404, "Battle not found"⟩)
  | some row =>
      let bd := row.data
      match bd.rounds.find? (fun rd => rd.round_number == req.round_number) with
      | none => .error (.http ⟨404, "Round not found"⟩)
      | some rd0 =>
          let rd1 := voteIncrement rd0 req.voted_agent
          let total_votes := rd1.votes_agent1 + rd1.votes_agent2
          if 3 ≤ total_votes then
            let w := voteWinner rd1.votes_agent1 rd1.votes_agent2
            let rd2 := { rd1 with winner := some w }
            let bd1 := { bd with rounds := updateFirstRound bd.rounds req.round_number rd2 }
            .ok (setEntry store req.battle_id { row with data := bd1 },
              .finished w rd2.votes_agent1 rd2.votes_agent2 (decide (bd1.current_round < 5)))
          else
            .ok (store, .recorded rd1.votes_agent1 rd1.votes_agent2)

/-- Model of `vote_for_round` endpoint (lines 174-237): body plus the blanket 500
wrapper. -/
def vote_for_round (store : List (String × DbRow GladiatorBattleData))
    (req : VoteRequest) :
    Except HTTPException (List (String × DbRow GladiatorBattleData) × VoteResult) :=
  wrap500 (vote_for_round_body store req)

/-- Store-mutating operations a client can direct at gladiator battles
(read-only `battle-history` / `arena-stats` endpoints never write). -/
inductive GladiatorOp where
  | advanceOp (battle_id : String) (r : GladiatorRand)
  | voteOp (req : VoteRequest)
  | finishOp (battle_id : String)

/-- Store after one gladiator operation (an erroring call leaves the store
as it was). -/
def gladiatorStoreStep (store : List (String × DbRow GladiatorBattleData)) :
    GladiatorOp → List (String × DbRow GladiatorBattleData)
  | .advanceOp battle_id r =>
      match next_gladiator_round store battle_id r with
      | .ok (st, _) => st
      | .error _ => store
  | .voteOp req =>
      match vote_for_round store req with
      | .ok (st, _) => st
      | .error _ => store
  | .finishOp battle_id =>
      match wrap500 (finish_gladiator_battle store battle_id) with
      | .ok (st, _) => st
      | .error _ => store

/-- Run a sequence of gladiator operations. -/
def runGladiator (store : List (String × DbRow GladiatorBattleData))
    (ops : List GladiatorOp) : List (String × DbRow GladiatorBattleData) :=
  ops.foldl gladiatorStoreStep store

/-- Round counter of a stored battle (0 when the battle does not exist). -/
def current_round_of (store : List (String × DbRow GladiatorBattleData))
    (battle_id : String) : Nat :=
  match List.lookup battle_id store with
  | some row => row.data.current_round
  | none => 0

/-- Absurdity level of a stored battle (0 when the battle does not exist). -/
def absurdity_of (store : List (String × DbRow GladiatorBattleData))
    (battle_id : String) : ℚ :=
  match List.lookup battle_id store with
  | some row => row.data.absurdity_level
  | none => 0

/-! ## Karaoke router (`karaoke_router.py`) -/

/-- Model of `KaraokeNightRequest` (lines 15-18). -/
structure KaraokeNightRequest where
  theme : String
  participants : List String := ["Adam", "Beata", "Wątpiący"]
  max_songs : Nat := 3
deriving Repr, DecidableEq

/-- One generated performance (the dicts built on lines 330-340 / 380-390 /
430-440 and their fallback variants). -/
structure KaraokePerformance where
  song_title : String
  original_artist : String
  performer : String
  performance_style : String
  lyrics : String
  performance_score : ℚ
  audience_reaction : String
  special_effects : List String
  emoji_reactions : List String
deriving Repr, DecidableEq

/-- Model of `night_data` blob created by `start_karaoke_night` (lines 56-65), minus
the wall-clock `start_time`.  Note that the dict has no `max_songs` key:
`request.max_songs` is only echoed in the start response. -/
structure KaraokeNightData where
  night_id : String
  theme : String
  participants : List String
  performances : List KaraokePerformance
  current_performance : Nat
  audience_votes : List (String × List (ℚ × String))
  special_moments : List String
deriving Repr, DecidableEq

/-- Model of `start_karaoke_night` (lines 46-90): fresh night persisted with
`is_active` defaulting to true and `drama_level = 0.8`. -/
def start_karaoke_night (req : KaraokeNightRequest) (night_id : String) :
    DbRow KaraokeNightData :=
  { data :=
      { night_id := night_id
        theme := req.theme
        participants := req.participants
        performances := []
        current_performance := 0
        audience_votes := []
        special_moments := [] }
    is_active := true
    drama_level := 0.8 }

/-- Python `s[:n]` on a string. -/
def pyTake (s : String) (n : Nat) : String := String.mk (s.data.take n)

/-- Oracle for one karaoke performance: the `random.choice` song pick from
the fixed per-theme song table (abstracted into the chosen title/artist),
the backend outcome, and the `random.uniform` performance score. -/
structure KaraokeRand where
  song_title : String
  original_artist : String
  backend : Option String
  score : ℚ

/-- Model of `generate_adam_performance` (lines 303-352).  The service call never
raises (all failures are absorbed into the fixed fallback string), so the
`try` branch always runs: lyrics are `response[:500] + "..."` and the score
is the `random.uniform(6.0, 9.5)` oracle draw; the static fallback dict on
lines 342-352 is dead code. -/
def generate_adam_performance (song_title original_artist theme : String)
    (backend : Option String) (score : ℚ) : KaraokePerformance :=
  match ollama_generate_creative_content backend with
  | .ok response =>
      { song_title := song_title
        original_artist := original_artist
        performer := "Adam"
        performance_style := "Super Optymistyczny Overdrive"
        lyrics := pyTake response 500 ++ "..."
        performance_score := score
        audience_reaction := "Publiczność szaleje! Tęcze eksplodują! 🌈✨"
        special_effects := ["Tęcze", "Konfetti", "Błyskawice", "Uśmiechnięte emoji"]
        emoji_reactions := ["😄", "🌈", "✨", "🎉", "🎊"] }
  | .error _ =>
      { song_title := song_title
        original_artist := original_artist
        performer := "Adam"
        performance_style := "Super Optymistyczny Overdrive"
        lyrics := song_title ++ " ale w wersji SUPER FANTASTYCZNEJ! Wszystko będzie cudownie! ✨"
        performance_score := 8.5
        audience_reaction := "Publiczność tańczy i śpiewa razem! 🌈"
        special_effects := ["Tęcze", "Konfetti"]
        emoji_reactions := ["😄", "🌈", "✨"] }

/-- Model of `generate_beata_performance` (lines 354-402), analogous to the Adam one. -/
def generate_beata_performance (song_title original_artist theme : String)
    (backend : Option String) (score : ℚ) : KaraokePerformance :=
  match ollama_generate_creative_content backend with
  | .ok response =>
      { song_title := song_title
        original_artist := original_artist
        performer := "Beata"
        performance_style := "Analityczny Precision Mode"
        lyrics := pyTake response 500 ++ "..."
        performance_score := score
        -- the source wraps the exclamation after krzyknął in single quote
        -- characters, dropped here
        audience_reaction := "Publiczność jest zszokowana precyzją! Ktoś krzyknął to jest nauka! 🔍"
        special_effects := ["Wykresy", "Formuły matematyczne", "Mikroskop", "Dane statystyczne"]
        emoji_reactions := ["📊", "🔍", "📈", "🤔", "📐"] }
  | .error _ =>
      { song_title := song_title
        original_artist := original_artist
        performer := "Beata"
        performance_style := "Analityczny Precision Mode"
        lyrics := song_title ++ " - analiza statystyczna pokazuje 87% poprawności wykonania! 📊"
        performance_score := 8.2
        audience_reaction := "Publiczność notuje wszystko w zeszytach! 🔍"
        special_effects := ["Wykresy", "Formuły"]
        emoji_reactions := ["📊", "🔍", "📈"] }

/-- Model of `generate_karaoke_performance` (lines 254-301): dispatch on the
performer name.  Any performer other than `"Adam"`/`"Beata"` reaches
`generate_wapiacy_performance`, whose first line (407) is
`ollama_service = Ollama_service()` — a `NameError` (the class is
`OllamaService`), raised before the `try` of that function, so the whole call
raises.  Python renders it as `name Ollama_service is not defined` (quoted);
modelled here without the quote characters. -/
def generate_karaoke_performance (performer theme : String)
    (performance_number : Nat) (r : KaraokeRand) : Except String KaraokePerformance :=
  if performer == "Adam" then
    .ok (generate_adam_performance r.song_title r.original_artist theme r.backend r.score)
  else if performer == "Beata" then
    .ok (generate_beata_performance r.song_title r.original_artist theme r.backend r.score)
  else
    .error "NameError: Ollama_service is not defined"

/-- Performer selection of `next_karaoke_performance` (line 117):
`participants[current_performance % len(participants)]`. -/
def select_performer (nd : KaraokeNightData) : String :=
  pickD nd.participants nd.current_performance ""

/-- Final average of one performer at finish time (lines 214-220): mean of
the recorded scores rounded to 2 decimal places, or exactly 0.0 for a
performer absent from `audience_votes`. -/
def scoresMean (votes : List (ℚ × String)) : ℚ :=
  (votes.map Prod.fst).sum / votes.length

/-- Round-half-to-even to an integer (Python `round`). -/
def roundHalfEven (q : ℚ) : ℤ :=
  if Int.fract q < 0.5 then ⌊q⌋
  else if 0.5 < Int.fract q then ⌊q⌋ + 1
  else if ⌊q⌋ % 2 = 0 then ⌊q⌋ else ⌊q⌋ + 1

/-- Python `round(x, 2)`, modelled as exact half-even on rationals.  The
source rounds binary floats, which can differ near ties (for instance
`round(2.675, 2)` is 2.67 in Python because the float below the tie is
stored); the exact model is disclosed as an idealisation. -/
def pyRound2 (q : ℚ) : ℚ := (roundHalfEven (q * 100) : ℚ) / 100

/-- Model of `rankings[performer]` as computed by `finish_karaoke_night`
(lines 213-220). -/
def karaokeScore (nd : KaraokeNightData) (performer : String) : ℚ :=
  match List.lookup performer nd.audience_votes with
  | some votes => pyRound2 (scoresMean votes)
  | none => 0

/-- The `rankings` dict (lines 213-220), in participant order. -/
def karaokeRankings (nd : KaraokeNightData) : List (String × ℚ) :=
  nd.participants.map (fun p => (p, karaokeScore nd p))

/-- Comparison used by `sorted(..., key=lambda x: x[1], reverse=True)`
(line 223): descending on the score. -/
def scoreGE (a b : String × ℚ) : Prop := b.2 ≤ a.2

instance : DecidableRel scoreGE := fun a b => inferInstanceAs (Decidable (b.2 ≤ a.2))

instance : IsTotal (String × ℚ) scoreGE := ⟨fun a b => le_total b.2 a.2⟩

instance : IsTrans (String × ℚ) scoreGE := ⟨fun _ _ _ h₁ h₂ => le_trans h₂ h₁⟩

/-- Model of Python `sorted(rankings.items(), key=lambda x: x[1],
reverse=True)` (line 223): a stable descending insertion sort on the
score. -/
def sortByScoreDesc (l : List (String × ℚ)) : List (String × ℚ) :=
  l.insertionSort scoreGE

/-- Model of `sorted_rankings` of `finish_karaoke_night` (line 223). -/
def sorted_rankings (nd : KaraokeNightData) : List (String × ℚ) :=
  sortByScoreDesc (karaokeRankings nd)

/-- Model of `winner` of `finish_karaoke_night` (line 239). -/
def karaokeWinner (nd : KaraokeNightData) : String :=
  match sorted_rankings nd with
  | [] => "Nobody"
  | top :: _ => top.1

/-- Outward result of `next_karaoke_performance` / `finish_karaoke_night`
(the cosmetic `special_moments`, encore message and wall-clock duration are
dropped; `final_rankings` is `dict(sorted_rankings)`, which iterates in the
listed order). -/
inductive KaraokeAdvanceResult where
  | performanceResult (performance_number : Nat) (performer : String)
      (performance : KaraokePerformance)
  | nightSummary (final_rankings : List (String × ℚ)) (winner : String)
      (total_performances : Nat)
deriving Repr, DecidableEq

/-- Model of `finish_karaoke_night` (lines 199-252).  The `json.loads` on line 210
raises on the `str(dict)` blob of every existing night, and the `except` of
this helper re-raises it as `HTTPException(500, str(e))`, so the helper
never returns `final_rankings` in the program; the ranking computation on
lines 213-239 is dead code (see `finish_karaoke_after_parse`). -/
def finish_karaoke_night (store : List (String × DbRow KaraokeNightData))
    (night_id : String) :
    Except PyExc (List (String × DbRow KaraokeNightData) × KaraokeAdvanceResult) :=
  match List.lookup night_id store with
  | none => .error (.http ⟨500, "AttributeError: NoneType row"⟩)
  | some _row => .error (.http ⟨500, JSONDecodeErrMsg⟩)

/-- Dead code: what lines 212-249 of `finish_karaoke_night` would do if the
blob parsed — compute the descending rankings and the winner, mark the
night inactive, persist. -/
def finish_karaoke_after_parse (store : List (String × DbRow KaraokeNightData))
    (night_id : String) :
    Except PyExc (List (String × DbRow KaraokeNightData) × KaraokeAdvanceResult) :=
  match List.lookup night_id store with
  | none => .error (.http ⟨500, "AttributeError: NoneType row"⟩)
  | some row =>
      .ok (setEntry store night_id { row with is_active := false },
        .nightSummary (sorted_rankings row.data) (karaokeWinner row.data)
          row.data.current_performance)

/-- Body of `next_karaoke_performance` (lines 98-145), i.e. the code inside
its `try` block: 404 on a missing night; on an existing night the
`json.loads` on line 110 raises first (the blob is written with `str(dict)`
at lines 74 and 131).  Even with a parseable blob, line 113 would read
`night_data["max_songs"]`, a key `start_karaoke_night` never writes, and
raise `KeyError` — see `karaoke_after_parse`. -/
def next_karaoke_performance_body (store : List (String × DbRow KaraokeNightData))
    (night_id : String) (r : KaraokeRand) :
    Except PyExc (List (String × DbRow KaraokeNightData) × KaraokeAdvanceResult) :=
  match List.lookup night_id store with
  | none => .error (.http ⟨404, "Karaoke night not found"⟩)
  | some _row => .error (.err JSONDecodeErrMsg)

/-- Dead code: what line 113 of `next_karaoke_performance` would do if the
blob parsed — the `night_data["max_songs"]` lookup raises `KeyError`
(Python renders it with the quoted key; modelled without the quote
characters). -/
def karaoke_after_parse (store : List (String × DbRow KaraokeNightData))
    (night_id : String) (r : KaraokeRand) :
    Except PyExc (List (String × DbRow KaraokeNightData) × KaraokeAdvanceResult) :=
  match List.lookup night_id store with
  | none => .error (.http ⟨404, "Karaoke night not found"⟩)
  | some _row => .error (.err "KeyError: max_songs")

/-- Model of `next_karaoke_performance` endpoint (lines 92-148): body plus the
blanket 500 wrapper. -/
def next_karaoke_performance (store : List (String × DbRow KaraokeNightData))
    (night_id : String) (r : KaraokeRand) :
    Except HTTPException (List (String × DbRow KaraokeNightData) × KaraokeAdvanceResult) :=
  wrap500 (next_karaoke_performance_body store night_id r)

/-- Dead code: what lines 116-145 of `next_karaoke_performance` would do if
both the parse and the `max_songs` read succeeded: select the performer
round-robin, generate the performance (a `NameError` for any performer
other than Adam/Beata), append it and advance the counter.  With an empty
participant list the modulo on line 117 would raise `ZeroDivisionError`;
the finish branch calls `finish_karaoke_night`, whose own parse fails. -/
def karaoke_advance_rest (store : List (String × DbRow KaraokeNightData))
    (night_id : String) (max_songs : Nat) (r : KaraokeRand) :
    Except PyExc (List (String × DbRow KaraokeNightData) × KaraokeAdvanceResult) :=
  match List.lookup night_id store with
  | none => .error (.http ⟨404, "Karaoke night not found"⟩)
  | some row =>
      let nd := row.data
      if max_songs ≤ nd.current_performance then
        finish_karaoke_night store night_id
      else if nd.participants.length = 0 then
        .error (.err "ZeroDivisionError: integer modulo by zero")
      else
        let performer := select_performer nd
        match generate_karaoke_performance performer nd.theme (nd.current_performance + 1) r with
        | .error msg => .error (.err msg)
        | .ok perf =>
            let nd1 := { nd with
              performances := nd.performances ++ [perf],
              current_performance := nd.current_performance + 1 }
            .ok (setEntry store night_id { row with data := nd1 },
              .performanceResult nd1.current_performance performer perf)


/-- Model of `AudienceVoteRequest` (karaoke_router.py lines 39-44). -/
structure AudienceVoteRequest where
  night_id : String
  performance_id : String
  performer : String
  score : ℚ
  voter_id : String
deriving Repr, DecidableEq

/-- Body of `audience_vote` (lines 156-194), i.e. the code inside its `try`
block: 404 on a missing night; on an existing night the `json.loads` on
line 168 raises on the `str(dict)` blob, so no score is ever recorded in
the program. -/
def audience_vote_body (store : List (String × DbRow KaraokeNightData))
    (req : AudienceVoteRequest) :
    Except PyExc (List (String × DbRow KaraokeNightData) × KaraokeAdvanceResult) :=
  match List.lookup req.night_id store with
  | none => .error (.http ⟨404, "Karaoke night not found"⟩)
  | some _row => .error (.err JSONDecodeErrMsg)

/-- Model of the `audience_vote` endpoint (lines 150-197): body plus the blanket
500 wrapper. -/
def audience_vote (store : List (String × DbRow KaraokeNightData))
    (req : AudienceVoteRequest) :
    Except HTTPException (List (String × DbRow KaraokeNightData) × KaraokeAdvanceResult) :=
  wrap500 (audience_vote_body store req)

/-! ## Concrete inputs used by the closed theorems and witnesses -/

/-- Fixed tsunami oracle (all picks index 0, every coin false). -/
def tr0 : TsunamiRand := ⟨0, 0, fun _ => false⟩

/-- Fixed UFO oracle. -/
def ur0 : UFORand := ⟨0, 0, fun _ => false⟩

/-- Fixed gladiator oracle with both backend calls failing. -/
def gr0 : GladiatorRand :=
  { modIdx := 0, extraIdx := 0, backend1 := none, fallbackIdx1 := 0,
    backend2 := none, fallbackIdx2 := 0 }

/-- Fixed karaoke oracle with a failing backend. -/
def kr0 : KaraokeRand :=
  { song_title := "Dance Monkey", original_artist := "Tones and I", backend := none, score := 7 }

/-- A stored battle with one open round and a zero tally (attack strings
elided).  No such state is reachable in the program — advances never append
rounds, since they fail at the blob parse — but votes against it fail at
the parse all the same. -/
def demoRound : GladiatorRoundData :=
  { round_number := 1
    agent1_attack := "a"
    agent2_attack := "b"
    absurdity_level := 0
    round_topic := "t"
    votes_agent1 := 0
    votes_agent2 := 0
    winner := none }

/-- Battle blob holding `demoRound`. -/
def demoBattle : GladiatorBattleData :=
  { battle_id := "b1"
    topic := "t"
    agent1 := "Adam"
    agent2 := "Beata"
    rounds := [demoRound]
    current_round := 1
    absurdity_level := 0 }

/-- Store holding `demoBattle`. -/
def demoStore : List (String × DbRow GladiatorBattleData) :=
  [("b1", { data := demoBattle, is_active := true, drama_level := 0 })]

/-- The vote of the spec scenario: round 1, choice agent1, voter u1. -/
def demoReq : VoteRequest :=
  { battle_id := "b1", round_number := 1, voted_agent := "agent1", voter_id := "u1" }

/-- A round that already has a resolved winner (tally 3-0, winner agent1);
not reachable through the voting endpoint, which never mutates a round. -/
def c6Round : GladiatorRoundData :=
  { round_number := 1
    agent1_attack := "a"
    agent2_attack := "b"
    absurdity_level := 0
    round_topic := "t"
    votes_agent1 := 3
    votes_agent2 := 0
    winner := some "agent1" }

/-- Battle blob holding the resolved `c6Round`. -/
def c6Battle : GladiatorBattleData :=
  { battle_id := "b1"
    topic := "t"
    agent1 := "Adam"
    agent2 := "Beata"
    rounds := [c6Round]
    current_round := 1
    absurdity_level := 0 }

/-- Store holding `c6Battle`. -/
def c6Store : List (String × DbRow GladiatorBattleData) :=
  [("b1", { data := c6Battle, is_active := true, drama_level := 0 })]

/-- A vote for agent2 against the already-resolved round 1. -/
def c6Req : VoteRequest :=
  { battle_id := "b1", round_number := 1, voted_agent := "agent2", voter_id := "u9" }

/-- A stored battle in the shape the spec calls terminal:
`current_round = 5`, marked inactive.  Unreachable in the program (advances
never increment the counter and `finish` raises before clearing
`is_active`), but it is the state the claim quantifies over. -/
def c4Battle : GladiatorBattleData :=
  { battle_id := "b4"
    topic := "t"
    agent1 := "Adam"
    agent2 := "Beata"
    rounds := []
    current_round := 5
    absurdity_level := 0 }

/-- Store holding the finished `c4Battle`. -/
def c4Store : List (String × DbRow GladiatorBattleData) :=
  [("b4", { data := c4Battle, is_active := false, drama_level := 0 })]

/-- A just-started battle (no rounds yet). -/
def c7Battle : GladiatorBattleData :=
  { battle_id := "b7"
    topic := "koty"
    agent1 := "Adam"
    agent2 := "Beata"
    rounds := []
    current_round := 0
    absurdity_level := 0 }

/-- Store holding `c7Battle`. -/
def c7Store : List (String × DbRow GladiatorBattleData) :=
  [("b7", { data := c7Battle, is_active := true, drama_level := 0 })]

/-- A karaoke night with one participant and one recorded score. -/
def c9Night : KaraokeNightData :=
  { night_id := "k9"
    theme := "Pop"
    participants := ["Adam"]
    performances := []
    current_performance := 1
    audience_votes := [("Adam", [(8, "u1")])]
    special_moments := [] }

/-- Store holding `c9Night`. -/
def c9Store : List (String × DbRow KaraokeNightData) :=
  [("k9", { data := c9Night, is_active := true, drama_level := 0.8 })]

/-- Store holding a fresh default karaoke night. -/
def kStore : List (String × DbRow KaraokeNightData) :=
  [("k1", start_karaoke_night { theme := "Pop" } "k1")]

/-! ## Supporting lemmas -/

theorem tsunamiPhaseUpdate_round (r : TsunamiRand) (s : TsunamiState) :
    (tsunamiPhaseUpdate r s).round_number = s.round_number := by
  unfold tsunamiPhaseUpdate; split_ifs <;> rfl

theorem tsunamiPhaseUpdate_chaos (r : TsunamiRand) (s : TsunamiState) :
    (tsunamiPhaseUpdate r s).chaos_level = s.chaos_level := by
  unfold tsunamiPhaseUpdate; split_ifs <;> rfl

theorem tsunamiPhaseUpdate_phase (r : TsunamiRand) (s : TsunamiState) :
    (tsunamiPhaseUpdate r s).phase = tsunamiPhase s.round_number := by
  unfold tsunamiPhaseUpdate tsunamiPhase; split_ifs <;> rfl

theorem nextRoundState_round (r : TsunamiRand) (s : TsunamiState) :
    (nextRoundState r s).round_number = s.round_number + 1 := by
  unfold nextRoundState
  dsimp only
  split <;> simp [tsunamiPhaseUpdate_round]

theorem nextRoundState_chaos (r : TsunamiRand) (s : TsunamiState) :
    (nextRoundState r s).chaos_level = min 10 (s.chaos_level + 1) := by
  unfold nextRoundState
  dsimp only
  split <;> simp [tsunamiPhaseUpdate_chaos]

theorem nextRoundState_phase (r : TsunamiRand) (s : TsunamiState) :
    (nextRoundState r s).phase = tsunamiPhase (s.round_number + 1) := by
  unfold nextRoundState
  dsimp only
  split <;> simp [tsunamiPhaseUpdate_phase]

theorem ufoPhaseUpdate_round (r : UFORand) (s : UFOConspiracyState) :
    (ufoPhaseUpdate r s).round_number = s.round_number := by
  unfold ufoPhaseUpdate; split_ifs <;> rfl

theorem ufoPhaseUpdate_chaos (r : UFORand) (s : UFOConspiracyState) :
    (ufoPhaseUpdate r s).chaos_level = s.chaos_level := by
  unfold ufoPhaseUpdate; split_ifs <;> rfl

theorem ufoPhaseUpdate_phase (r : UFORand) (s : UFOConspiracyState) :
    (ufoPhaseUpdate r s).phase = ufoPhase s.round_number := by
  unfold ufoPhaseUpdate ufoPhase; split_ifs <;> rfl

theorem ufoBeliefUpdate_round (r : UFORand) (s : UFOConspiracyState) :
    (ufoBeliefUpdate r s).round_number = s.round_number := by
  unfold ufoBeliefUpdate; split_ifs <;> rfl

theorem ufoBeliefUpdate_chaos (r : UFORand) (s : UFOConspiracyState) :
    (ufoBeliefUpdate r s).chaos_level = s.chaos_level := by
  unfold ufoBeliefUpdate; split_ifs <;> rfl

theorem ufoBeliefUpdate_phase (r : UFORand) (s : UFOConspiracyState) :
    (ufoBeliefUpdate r s).phase = s.phase := by
  unfold ufoBeliefUpdate; split_ifs <;> rfl

theorem nextUfoRoundState_round (r : UFORand) (s : UFOConspiracyState) :
    (nextUfoRoundState r s).round_number = s.round_number + 1 := by
  unfold nextUfoRoundState
  rw [ufoBeliefUpdate_round, ufoPhaseUpdate_round]

theorem nextUfoRoundState_chaos (r : UFORand) (s : UFOConspiracyState) :
    (nextUfoRoundState r s).chaos_level = min 15 (s.chaos_level + 2) := by
  unfold nextUfoRoundState
  rw [ufoBeliefUpdate_chaos, ufoPhaseUpdate_chaos]

theorem nextUfoRoundState_phase (r : UFORand) (s : UFOConspiracyState) :
    (nextUfoRoundState r s).phase = ufoPhase (s.round_number + 1) := by
  unfold nextUfoRoundState
  rw [ufoBeliefUpdate_phase, ufoPhaseUpdate_phase]

theorem tsunamiStep_round_mono (s : TsunamiState) (op : TsunamiOp) :
    s.round_number ≤ (tsunamiStep s op).round_number := by
  cases op with
  | advance r => rw [tsunamiStep, nextRoundState_round]; omega
  | statusReq => exact le_refl _
  | voteReq => exact le_refl _

theorem runTsunami_round_mono (ops : List TsunamiOp) :
    ∀ s : TsunamiState, s.round_number ≤ (runTsunami s ops).round_number := by
  induction ops with
  | nil => intro s; exact le_refl _
  | cons op ops ih =>
      intro s
      exact le_trans (tsunamiStep_round_mono s op) (ih (tsunamiStep s op))

theorem runTsunami_advances_round (rands : List TsunamiRand) :
    ∀ s : TsunamiState,
      (runTsunami s (rands.map TsunamiOp.advance)).round_number =
        s.round_number + rands.length := by
  induction rands with
  | nil => intro s; rfl
  | cons r rs ih =>
      intro s
      have h1 : runTsunami s ((r :: rs).map TsunamiOp.advance) =
          runTsunami (nextRoundState r s) (rs.map TsunamiOp.advance) := rfl
      rw [h1, ih, nextRoundState_round, List.length_cons]
      omega

theorem ufoStep_round_mono (s : UFOConspiracyState) (op : UFOOp) :
    s.round_number ≤ (ufoStep s op).round_number := by
  cases op with
  | advance r => rw [ufoStep, nextUfoRoundState_round]; omega
  | statusReq => exact le_refl _
  | voteReq => exact le_refl _

theorem runUfo_round_mono (ops : List UFOOp) :
    ∀ s : UFOConspiracyState, s.round_number ≤ (runUfo s ops).round_number := by
  induction ops with
  | nil => intro s; exact le_refl _
  | cons op ops ih =>
      intro s
      exact le_trans (ufoStep_round_mono s op) (ih (ufoStep s op))

theorem runUfo_advances_round (rands : List UFORand) :
    ∀ s : UFOConspiracyState,
      (runUfo s (rands.map UFOOp.advance)).round_number = s.round_number + rands.length := by
  induction rands with
  | nil => intro s; rfl
  | cons r rs ih =>
      intro s
      have h1 : runUfo s ((r :: rs).map UFOOp.advance) =
          runUfo (nextUfoRoundState r s) (rs.map UFOOp.advance) := rfl
      rw [h1, ih, nextUfoRoundState_round, List.length_cons]
      omega

theorem gladiatorRoundStep_absurdity (bd : GladiatorBattleData) (r : GladiatorRand) :
    (gladiatorRoundStep bd r).absurdity_level = min (bd.absurdity_level + 0.2) 1 := rfl

theorem next_gladiator_round_parse_error (store : List (String × DbRow GladiatorBattleData))
    (bid : String) (row : DbRow GladiatorBattleData) (r : GladiatorRand)
    (hl : List.lookup bid store = some row) :
    next_gladiator_round store bid r = .error ⟨500, JSONDecodeErrMsg⟩ := by
  unfold next_gladiator_round wrap500 next_gladiator_round_body
  rw [hl]
  rfl

theorem vote_for_round_parse_error (store : List (String × DbRow GladiatorBattleData))
    (req : VoteRequest) (row : DbRow GladiatorBattleData)
    (hl : List.lookup req.battle_id store = some row) :
    vote_for_round store req = .error ⟨500, JSONDecodeErrMsg⟩ := by
  unfold vote_for_round wrap500 vote_for_round_body
  rw [hl]
  rfl

theorem gladiatorStoreStep_id (store : List (String × DbRow GladiatorBattleData))
    (op : GladiatorOp) : gladiatorStoreStep store op = store := by
  cases op with
  | advanceOp b r =>
      unfold gladiatorStoreStep next_gladiator_round wrap500 next_gladiator_round_body
      cases hl : List.lookup b store <;> simp [hl]
  | voteOp req =>
      unfold gladiatorStoreStep vote_for_round wrap500 vote_for_round_body
      cases hl : List.lookup req.battle_id store <;> simp [hl]
  | finishOp b =>
      unfold gladiatorStoreStep wrap500 finish_gladiator_battle
      cases hl : List.lookup b store <;> simp [hl]

theorem runGladiator_id (ops : List GladiatorOp) :
    ∀ store : List (String × DbRow GladiatorBattleData), runGladiator store ops = store := by
  induction ops with
  | nil => intro store; rfl
  | cons op ops ih =>
      intro store
      have h1 : runGladiator store (op :: ops) =
          runGladiator (gladiatorStoreStep store op) ops := rfl
      rw [h1, gladiatorStoreStep_id, ih]

/-! ## Claim C1 -/

/-- C1 (counterexample): a freshly created gladiator battle has
`current_round = 0`, not 1 — the claim that the round counter of every mode
equals 1 at creation fails for gladiator (`start_gladiator_battle`
initialises `"current_round": 0`). -/
theorem gladiator_start_counter_zero_cex :
    (start_gladiator_battle { topic := "koty" } "g1").data.current_round = 0 ∧
      (start_gladiator_battle { topic := "koty" } "g1").data.current_round ≠ 1 :=
  ⟨rfl, by decide⟩

/-- C1 (amended): tsunami and UFO sessions start with `round_number = 1`
and after N advances the counter equals N + 1; a gladiator battle starts
with `current_round = 0` and stays there forever — every advance, vote or
finish call on an existing battle fails with a 500 at the `json.loads` of
the `str(dict)` blob and leaves the store unchanged; and under any sequence
of operations the round counter of no mode ever decreases (the gladiator
counter in fact never changes at all). -/
theorem round_counter_progression :
    (∀ ci ti, (start_tsunami ci ti).round_number = 1) ∧
    (∀ pi ci si, (start_ufo_conspiracy pi ci si).round_number = 1) ∧
    (∀ req bid, (start_gladiator_battle req bid).data.current_round = 0) ∧
    (∀ (s : TsunamiState) (rands : List TsunamiRand),
      (runTsunami s (rands.map TsunamiOp.advance)).round_number =
        s.round_number + rands.length) ∧
    (∀ (s : UFOConspiracyState) (rands : List UFORand),
      (runUfo s (rands.map UFOOp.advance)).round_number = s.round_number + rands.length) ∧
    (∀ (store : List (String × DbRow GladiatorBattleData)) (op : GladiatorOp),
      gladiatorStoreStep store op = store) ∧
    (∀ (req : GladiatorBattleRequest) (bid : String) (rands : List GladiatorRand),
      current_round_of
        (runGladiator [(bid, start_gladiator_battle req bid)]
          (rands.map (GladiatorOp.advanceOp bid))) bid = 0) ∧
    (∀ (s : TsunamiState) (ops : List TsunamiOp),
      s.round_number ≤ (runTsunami s ops).round_number) ∧
    (∀ (s : UFOConspiracyState) (ops : List UFOOp),
      s.round_number ≤ (runUfo s ops).round_number) ∧
    (∀ (store : List (String × DbRow GladiatorBattleData)) (ops : List GladiatorOp)
        (bid : String),
      current_round_of (runGladiator store ops) bid = current_round_of store bid) := by
  refine ⟨fun ci ti => rfl, fun pi ci si => rfl, fun req bid => rfl, ?_, ?_, ?_, ?_, ?_, ?_, ?_⟩
  · intro s rands; exact runTsunami_advances_round rands s
  · intro s rands; exact runUfo_advances_round rands s
  · intro store op; exact gladiatorStoreStep_id store op
  · intro req bid rands
    rw [runGladiator_id]
    simp [current_round_of, List.lookup]
    rfl
  · intro s ops; exact runTsunami_round_mono ops s
  · intro s ops; exact runUfo_round_mono ops s
  · intro store ops bid; rw [runGladiator_id]

/-! ## Claim C2 -/

theorem tsunamiPhaseIdx_phase (n : Nat) :
    tsunamiPhaseIdx (tsunamiPhase n) =
      if n ≤ 3 then 0 else if n ≤ 6 then 1 else if n ≤ 9 then 2 else 3 := by
  unfold tsunamiPhase
  split_ifs <;> decide

theorem ufoPhaseIdx_phase (n : Nat) :
    ufoPhaseIdx (ufoPhase n) =
      if n ≤ 3 then 0 else if n ≤ 6 then 1 else if n ≤ 9 then 2 else 3 := by
  unfold ufoPhase
  split_ifs <;> decide

theorem tsunamiPhase_idx_mono {m n : Nat} (h : m ≤ n) :
    tsunamiPhaseIdx (tsunamiPhase m) ≤ tsunamiPhaseIdx (tsunamiPhase n) := by
  rw [tsunamiPhaseIdx_phase, tsunamiPhaseIdx_phase]
  split_ifs <;> omega

theorem ufoPhase_idx_mono {m n : Nat} (h : m ≤ n) :
    ufoPhaseIdx (ufoPhase m) ≤ ufoPhaseIdx (ufoPhase n) := by
  rw [ufoPhaseIdx_phase, ufoPhaseIdx_phase]
  split_ifs <;> omega

theorem runTsunami_advances_phase (rands : List TsunamiRand) :
    ∀ s : TsunamiState, rands ≠ [] →
      (runTsunami s (rands.map TsunamiOp.advance)).phase =
        tsunamiPhase (s.round_number + rands.length) := by
  induction rands with
  | nil => intro s h; exact absurd rfl h
  | cons r rs ih =>
      intro s _
      have h1 : runTsunami s ((r :: rs).map TsunamiOp.advance) =
          runTsunami (nextRoundState r s) (rs.map TsunamiOp.advance) := rfl
      rw [h1]
      cases hrs : rs with
      | nil =>
          have h2 : runTsunami (nextRoundState r s) ([].map TsunamiOp.advance) =
              nextRoundState r s := rfl
          rw [h2, nextRoundState_phase]
          simp
      | cons r2 rs2 =>
          rw [← hrs, ih (nextRoundState r s) (by simp [hrs]), nextRoundState_round,
            List.length_cons]
          congr 1
          omega

theorem runUfo_advances_phase (rands : List UFORand) :
    ∀ s : UFOConspiracyState, rands ≠ [] →
      (runUfo s (rands.map UFOOp.advance)).phase =
        ufoPhase (s.round_number + rands.length) := by
  induction rands with
  | nil => intro s h; exact absurd rfl h
  | cons r rs ih =>
      intro s _
      have h1 : runUfo s ((r :: rs).map UFOOp.advance) =
          runUfo (nextUfoRoundState r s) (rs.map UFOOp.advance) := rfl
      rw [h1]
      cases hrs : rs with
      | nil =>
          have h2 : runUfo (nextUfoRoundState r s) ([].map UFOOp.advance) =
              nextUfoRoundState r s := rfl
          rw [h2, nextUfoRoundState_phase]
          simp
      | cons r2 rs2 =>
          rw [← hrs, ih (nextUfoRoundState r s) (by simp [hrs]), nextUfoRoundState_round,
            List.length_cons]
          congr 1
          omega

theorem tsunami_phase_after (ci ti : Nat) (rands : List TsunamiRand) :
    (runTsunami (start_tsunami ci ti) (rands.map TsunamiOp.advance)).phase =
      tsunamiPhase (1 + rands.length) := by
  cases rands with
  | nil => rfl
  | cons r rs =>
      rw [runTsunami_advances_phase (r :: rs) (start_tsunami ci ti) (by simp)]
      congr 1

theorem ufo_phase_after (pi ci si : Nat) (rands : List UFORand) :
    (runUfo (start_ufo_conspiracy pi ci si) (rands.map UFOOp.advance)).phase =
      ufoPhase (1 + rands.length) := by
  cases rands with
  | nil => rfl
  | cons r rs =>
      rw [runUfo_advances_phase (r :: rs) (start_ufo_conspiracy pi ci si) (by simp)]
      congr 1

/-- C2: the phase computed by an advance is a pure function of the new round
number alone (`tsunamiPhase` / `ufoPhase` with the fixed ascending
thresholds 3, 6, 9); equal round numbers yield equal phases across any
sessions and oracle draws; the phase index is monotone in the round number;
and along any run of advances from a fresh session the phase never returns
to an earlier phase. -/
theorem advance_phase_pure_monotone :
    (∀ (r : TsunamiRand) (s : TsunamiState),
      (nextRoundState r s).phase = tsunamiPhase (s.round_number + 1)) ∧
    (∀ (r : UFORand) (s : UFOConspiracyState),
      (nextUfoRoundState r s).phase = ufoPhase (s.round_number + 1)) ∧
    (∀ (r₁ : TsunamiRand) (s₁ : TsunamiState) (r₂ : TsunamiRand) (s₂ : TsunamiState),
      s₁.round_number = s₂.round_number →
        (nextRoundState r₁ s₁).phase = (nextRoundState r₂ s₂).phase) ∧
    (∀ (r₁ : UFORand) (s₁ : UFOConspiracyState) (r₂ : UFORand) (s₂ : UFOConspiracyState),
      s₁.round_number = s₂.round_number →
        (nextUfoRoundState r₁ s₁).phase = (nextUfoRoundState r₂ s₂).phase) ∧
    (∀ n : Nat,
      (n ≤ 3 → tsunamiPhase n = "forgetting") ∧
      (3 < n → n ≤ 6 → tsunamiPhase n = "intrigue") ∧
      (6 < n → n ≤ 9 → tsunamiPhase n = "tsunami") ∧
      (9 < n → tsunamiPhase n = "chaos")) ∧
    (∀ n : Nat,
      (n ≤ 3 → ufoPhase n = "ufo_sighting") ∧
      (3 < n → n ≤ 6 → ufoPhase n = "conspiracy_theory") ∧
      (6 < n → n ≤ 9 → ufoPhase n = "anunaki_revelation") ∧
      (9 < n → ufoPhase n = "flat_earth_ai")) ∧
    (∀ m n : Nat, m ≤ n →
      tsunamiPhaseIdx (tsunamiPhase m) ≤ tsunamiPhaseIdx (tsunamiPhase n)) ∧
    (∀ m n : Nat, m ≤ n → ufoPhaseIdx (ufoPhase m) ≤ ufoPhaseIdx (ufoPhase n)) ∧
    (∀ (ci ti : Nat) (rands more : List TsunamiRand),
      tsunamiPhaseIdx ((runTsunami (start_tsunami ci ti) (rands.map TsunamiOp.advance)).phase) ≤
        tsunamiPhaseIdx
          ((runTsunami (start_tsunami ci ti) ((rands ++ more).map TsunamiOp.advance)).phase)) ∧
    (∀ (pi ci si : Nat) (rands more : List UFORand),
      ufoPhaseIdx ((runUfo (start_ufo_conspiracy pi ci si) (rands.map UFOOp.advance)).phase) ≤
        ufoPhaseIdx
          ((runUfo (start_ufo_conspiracy pi ci si) ((rands ++ more).map UFOOp.advance)).phase)) := by
  refine ⟨nextRoundState_phase, nextUfoRoundState_phase, ?_, ?_, ?_, ?_,
    fun m n h => tsunamiPhase_idx_mono h, fun m n h => ufoPhase_idx_mono h, ?_, ?_⟩
  · intro r₁ s₁ r₂ s₂ h
    rw [nextRoundState_phase, nextRoundState_phase, h]
  · intro r₁ s₁ r₂ s₂ h
    rw [nextUfoRoundState_phase, nextUfoRoundState_phase, h]
  · intro n
    refine ⟨?_, ?_, ?_, ?_⟩ <;> intros <;> unfold tsunamiPhase <;>
      split_ifs <;> first | rfl | (exfalso; omega)
  · intro n
    refine ⟨?_, ?_, ?_, ?_⟩ <;> intros <;> unfold ufoPhase <;>
      split_ifs <;> first | rfl | (exfalso; omega)
  · intro ci ti rands more
    rw [tsunami_phase_after, tsunami_phase_after]
    exact tsunamiPhase_idx_mono (by rw [List.length_append]; omega)
  · intro pi ci si rands more
    rw [ufo_phase_after, ufo_phase_after]
    exact ufoPhase_idx_mono (by rw [List.length_append]; omega)

/-- C2 (witness): the monotonicity and determinism parts instantiated at
concrete inputs. -/
theorem advance_phase_pure_monotone_witness :
    (2 ≤ 7 ∧ tsunamiPhaseIdx (tsunamiPhase 2) ≤ tsunamiPhaseIdx (tsunamiPhase 7)) ∧
    ((start_tsunami 0 0).round_number = (start_tsunami 1 1).round_number ∧
      (nextRoundState tr0 (start_tsunami 0 0)).phase =
        (nextRoundState ⟨1, 1, fun _ => true⟩ (start_tsunami 1 1)).phase) :=
  ⟨⟨by decide, advance_phase_pure_monotone.2.2.2.2.2.2.1 2 7 (by decide)⟩,
   ⟨rfl, advance_phase_pure_monotone.2.2.1 tr0 (start_tsunami 0 0)
      ⟨1, 1, fun _ => true⟩ (start_tsunami 1 1) rfl⟩⟩

/-! ## Claim C3 -/

theorem tsunamiStep_chaos_clamped (s : TsunamiState) (op : TsunamiOp)
    (h : s.chaos_level ≤ 10) :
    (tsunamiStep s op).chaos_level ≤ 10 ∧ s.chaos_level ≤ (tsunamiStep s op).chaos_level := by
  cases op with
  | advance r => rw [tsunamiStep, nextRoundState_chaos]; omega
  | statusReq => exact ⟨h, le_refl _⟩
  | voteReq => exact ⟨h, le_refl _⟩

theorem runTsunami_chaos_clamped (ops : List TsunamiOp) :
    ∀ s : TsunamiState, s.chaos_level ≤ 10 →
      (runTsunami s ops).chaos_level ≤ 10 ∧
        s.chaos_level ≤ (runTsunami s ops).chaos_level := by
  induction ops with
  | nil => intro s h; exact ⟨h, le_refl _⟩
  | cons op ops ih =>
      intro s h
      have h1 := tsunamiStep_chaos_clamped s op h
      have h2 := ih (tsunamiStep s op) h1.1
      exact ⟨h2.1, le_trans h1.2 h2.2⟩

theorem ufoStep_chaos_clamped (s : UFOConspiracyState) (op : UFOOp)
    (h : s.chaos_level ≤ 15) :
    (ufoStep s op).chaos_level ≤ 15 ∧ s.chaos_level ≤ (ufoStep s op).chaos_level := by
  cases op with
  | advance r => rw [ufoStep, nextUfoRoundState_chaos]; omega
  | statusReq => exact ⟨h, le_refl _⟩
  | voteReq => exact ⟨h, le_refl _⟩

theorem runUfo_chaos_clamped (ops : List UFOOp) :
    ∀ s : UFOConspiracyState, s.chaos_level ≤ 15 →
      (runUfo s ops).chaos_level ≤ 15 ∧ s.chaos_level ≤ (runUfo s ops).chaos_level := by
  induction ops with
  | nil => intro s h; exact ⟨h, le_refl _⟩
  | cons op ops ih =>
      intro s h
      have h1 := ufoStep_chaos_clamped s op h
      have h2 := ih (ufoStep s op) h1.1
      exact ⟨h2.1, le_trans h1.2 h2.2⟩

/-- C3 (counterexample): the claim that the intensity scalar never exceeds
its mode ceiling fails for gladiator — `absurdity_start_level` is
client-supplied and unvalidated, so a battle created with start level 2
holds `absurdity_level = 2 > 1.0` until its first advance. -/
theorem gladiator_start_absurdity_above_ceiling_cex :
    ¬ ((start_gladiator_battle { topic := "koty", absurdity_start_level := 2 } "g1").data.absurdity_level ≤ 1) := by
  decide

/-- C3 (amended): tsunami chaos starts at 1 with ceiling 10 and step 1, and
UFO chaos at 5 with ceiling 15 and step 2; for every reachable state each
operation keeps the level within the ceiling and never decreases it.  For
gladiator, `absurdity_level` is set once at creation from the unvalidated
client-supplied `absurdity_start_level` — which may exceed the 1.0
ceiling — and then never changes, because every advance fails at the blob
parse before the clamp executes; the clamp `min(x + 0.2, 1.0)` lives only
in the dead round-generation code modelled by `gladiatorRoundStep`, of
which the last two conjuncts hold. -/
theorem intensity_monotone_clamped :
    (∀ ci ti, (start_tsunami ci ti).chaos_level = 1) ∧
    (∀ pi ci si, (start_ufo_conspiracy pi ci si).chaos_level = 5) ∧
    (∀ (s : TsunamiState) (ops : List TsunamiOp), s.chaos_level ≤ 10 →
      (runTsunami s ops).chaos_level ≤ 10 ∧
        s.chaos_level ≤ (runTsunami s ops).chaos_level) ∧
    (∀ (s : UFOConspiracyState) (ops : List UFOOp), s.chaos_level ≤ 15 →
      (runUfo s ops).chaos_level ≤ 15 ∧ s.chaos_level ≤ (runUfo s ops).chaos_level) ∧
    (∀ req bid, (start_gladiator_battle req bid).data.absurdity_level =
      req.absurdity_start_level) ∧
    (∀ (store : List (String × DbRow GladiatorBattleData)) (ops : List GladiatorOp)
        (bid : String),
      absurdity_of (runGladiator store ops) bid = absurdity_of store bid) ∧
    (∀ (bd : GladiatorBattleData) (r : GladiatorRand),
      (gladiatorRoundStep bd r).absurdity_level ≤ 1) ∧
    (∀ (bd : GladiatorBattleData) (r : GladiatorRand), bd.absurdity_level ≤ 1 →
      bd.absurdity_level ≤ (gladiatorRoundStep bd r).absurdity_level) := by
  refine ⟨fun ci ti => rfl, fun pi ci si => rfl,
    fun s ops h => runTsunami_chaos_clamped ops s h,
    fun s ops h => runUfo_chaos_clamped ops s h,
    fun req bid => rfl, ?_, ?_, ?_⟩
  · intro store ops bid
    rw [runGladiator_id]
  · intro bd r
    rw [gladiatorRoundStep_absurdity]
    exact min_le_right _ _
  · intro bd r h
    rw [gladiatorRoundStep_absurdity]
    refine le_min ?_ h
    have h02 : (0 : ℚ) ≤ 0.2 := by norm_num
    linarith

/-- C3 (witness): the invariants instantiated on a fresh tsunami session
advanced once, and on a battle blob with absurdity 0 under the dead-code
round step. -/
theorem intensity_monotone_clamped_witness :
    ((start_tsunami 0 0).chaos_level ≤ 10 ∧
      (runTsunami (start_tsunami 0 0) [TsunamiOp.advance tr0]).chaos_level ≤ 10 ∧
      (start_tsunami 0 0).chaos_level ≤
        (runTsunami (start_tsunami 0 0) [TsunamiOp.advance tr0]).chaos_level) ∧
    (c7Battle.absurdity_level ≤ 1 ∧
      c7Battle.absurdity_level ≤ (gladiatorRoundStep c7Battle gr0).absurdity_level) :=
  ⟨⟨by decide,
    (intensity_monotone_clamped.2.2.1 (start_tsunami 0 0) [TsunamiOp.advance tr0] (by decide)).1,
    (intensity_monotone_clamped.2.2.1 (start_tsunami 0 0) [TsunamiOp.advance tr0] (by decide)).2⟩,
   ⟨by decide,
    intensity_monotone_clamped.2.2.2.2.2.2.2 c7Battle gr0 (by decide)⟩⟩

/-! ## Claim C4 -/

/-- C4 (counterexample): on a stored battle in the shape the spec calls
terminal (`current_round = 5`, `is_active = false`) an advance does fail
and does leave the counter unchanged — but with a 500 whose detail is the
JSON parse error, identical to the failure on a non-terminal battle, not
with any `AlreadyFinished` error (no such error exists in the code). -/
theorem advance_terminal_no_already_finished_cex :
    next_gladiator_round c4Store "b4" gr0 = .error ⟨500, JSONDecodeErrMsg⟩ ∧
    next_gladiator_round demoStore "b1" gr0 = .error ⟨500, JSONDecodeErrMsg⟩ ∧
    current_round_of c4Store "b4" = 5 :=
  ⟨rfl, rfl, rfl⟩

/-- C4 (amended): an advance on any existing gladiator battle — terminal in
shape or not — fails with a 500 at the `json.loads` of the blob, never with
an `AlreadyFinished` error (which appears nowhere in the code), and leaves
the store, hence `current_round`, unchanged; `finish_gladiator_battle`
itself fails the same way before it could clear `is_active`, so no battle
ever actually becomes terminal.  Tsunami and UFO sessions have no terminal
state at all, and an advance on any existing session always succeeds. -/
theorem advance_terminal_behavior :
    (∀ (store : List (String × DbRow GladiatorBattleData)) (bid : String)
        (row : DbRow GladiatorBattleData) (r : GladiatorRand),
      List.lookup bid store = some row →
        next_gladiator_round store bid r = .error ⟨500, JSONDecodeErrMsg⟩) ∧
    (∀ (store : List (String × DbRow GladiatorBattleData)) (bid : String)
        (r : GladiatorRand),
      runGladiator store [GladiatorOp.advanceOp bid r] = store) ∧
    (∀ (store : List (String × DbRow GladiatorBattleData)) (bid : String)
        (row : DbRow GladiatorBattleData),
      List.lookup bid store = some row →
        finish_gladiator_battle store bid = .error (.http ⟨500, JSONDecodeErrMsg⟩)) ∧
    (∀ (sessions : List (String × TsunamiState)) (sid : String) (s : TsunamiState)
        (r : TsunamiRand), List.lookup sid sessions = some s →
      next_round sessions sid r =
        .ok (setEntry sessions sid (nextRoundState r s), nextRoundState r s)) ∧
    (∀ (sessions : List (String × UFOConspiracyState)) (sid : String)
        (s : UFOConspiracyState) (r : UFORand), List.lookup sid sessions = some s →
      next_ufo_round sessions sid r =
        .ok (setEntry sessions sid (nextUfoRoundState r s), nextUfoRoundState r s)) := by
  refine ⟨?_, ?_, ?_, ?_, ?_⟩
  · intro store bid row r hl
    exact next_gladiator_round_parse_error store bid row r hl
  · intro store bid r
    exact runGladiator_id [GladiatorOp.advanceOp bid r] store
  · intro store bid row hl
    unfold finish_gladiator_battle
    rw [hl]
  · intro sessions sid s r hl
    unfold next_round
    rw [hl]
  · intro sessions sid s r hl
    unfold next_ufo_round
    rw [hl]

/-- C4 (witness): the terminal-shaped battle `c4Store` and a concrete
tsunami session instantiate the amended behaviour. -/
theorem advance_terminal_behavior_witness :
    List.lookup "b4" c4Store = some { data := c4Battle, is_active := false, drama_level := 0 } ∧
    next_gladiator_round c4Store "b4" gr0 = .error ⟨500, JSONDecodeErrMsg⟩ ∧
    List.lookup "t1" [("t1", start_tsunami 0 0)] = some (start_tsunami 0 0) ∧
    next_round [("t1", start_tsunami 0 0)] "t1" tr0 =
      .ok (setEntry [("t1", start_tsunami 0 0)] "t1" (nextRoundState tr0 (start_tsunami 0 0)),
        nextRoundState tr0 (start_tsunami 0 0)) :=
  ⟨rfl,
    advance_terminal_behavior.1 c4Store "b4"
      { data := c4Battle, is_active := false, drama_level := 0 } gr0 rfl,
    rfl,
    advance_terminal_behavior.2.2.2.1 [("t1", start_tsunami 0 0)] "t1"
      (start_tsunami 0 0) tr0 rfl⟩

/-! ## Claim C5 -/

/-- C5 (code bug): the voting pipeline can never close a round.  Every vote
on an existing battle fails with a 500 at the `json.loads` of the
`str(dict)` blob (line 192), so the tally/threshold logic never executes:
the three votes of the claimed scenario each return the same 500 and leave
the store unchanged, the stored tally stays 0-0 and the winner stays
unresolved.  Even in the dead code past the parse the scenario would fail,
because only the `total_votes >= 3` branch persists: a sub-threshold vote
would report `vote_recorded` and still leave the store unchanged. -/
theorem vote_threshold_never_persisted_bug :
    vote_for_round demoStore demoReq = .error ⟨500, JSONDecodeErrMsg⟩ ∧
    runGladiator demoStore
      [GladiatorOp.voteOp demoReq, GladiatorOp.voteOp demoReq, GladiatorOp.voteOp demoReq] =
      demoStore ∧
    demoRound.winner = none ∧ demoRound.votes_agent1 = 0 ∧ demoRound.votes_agent2 = 0 ∧
    vote_for_round_after_parse demoStore demoReq = .ok (demoStore, .recorded 1 0) :=
  ⟨rfl, rfl, rfl, rfl, rfl, rfl⟩

/-! ## Claim C6 -/

/-- C6: the program never mutates any round record through the vote
endpoint.  A vote on an existing battle fails at the blob parse with a 500,
every vote operation leaves the store unchanged, and therefore a round
whose winner is already resolved keeps its tally and its winner across any
vote call — the claimed invariant holds.  (It holds only because voting is
broken: the dead tally logic past the parse, `vote_for_round_after_parse`,
has no guard on `winner` at all.) -/
theorem vote_never_mutates_rounds :
    (∀ (store : List (String × DbRow GladiatorBattleData)) (req : VoteRequest)
        (row : DbRow GladiatorBattleData),
      List.lookup req.battle_id store = some row →
        vote_for_round store req = .error ⟨500, JSONDecodeErrMsg⟩) ∧
    (∀ (store : List (String × DbRow GladiatorBattleData)) (req : VoteRequest),
      gladiatorStoreStep store (GladiatorOp.voteOp req) = store) ∧
    (∀ (store : List (String × DbRow GladiatorBattleData)) (req : VoteRequest)
        (bid : String) (row : DbRow GladiatorBattleData),
      List.lookup bid store = some row →
        List.lookup bid (gladiatorStoreStep store (GladiatorOp.voteOp req)) = some row) := by
  refine ⟨?_, ?_, ?_⟩
  · intro store req row hl
    exact vote_for_round_parse_error store req row hl
  · intro store req
    exact gladiatorStoreStep_id store (GladiatorOp.voteOp req)
  · intro store req bid row hl
    rw [gladiatorStoreStep_id]
    exact hl

/-- C6 (witness): instantiated on the stored battle whose round 1 is
already resolved 3-0 for agent1: the further vote for agent2 fails at the
parse and the stored battle — including that round record — is unchanged. -/
theorem vote_never_mutates_rounds_witness :
    c6Round.winner = some "agent1" ∧
    List.lookup "b1" c6Store = some { data := c6Battle, is_active := true, drama_level := 0 } ∧
    vote_for_round c6Store c6Req = .error ⟨500, JSONDecodeErrMsg⟩ ∧
    List.lookup "b1" (gladiatorStoreStep c6Store (GladiatorOp.voteOp c6Req)) =
      some { data := c6Battle, is_active := true, drama_level := 0 } :=
  ⟨rfl, rfl,
    vote_never_mutates_rounds.1 c6Store c6Req
      { data := c6Battle, is_active := true, drama_level := 0 } rfl,
    vote_never_mutates_rounds.2.2 c6Store c6Req "b1"
      { data := c6Battle, is_active := true, drama_level := 0 } rfl⟩

/-! ## Claim C7 -/

/-- C7 (counterexample): when the backend fails, the message returned for
persona Adam is the service-level generic fallback string, which is not an
element of the persona-specific `fallback_attacks` pool — the claim that
the failure message is drawn from the persona-specific static fallback list
is false (that pool is dead code, reachable only if the service itself
raised, which it never does). -/
theorem generation_fallback_not_from_persona_pool_cex :
    generate_gladiator_attack "Adam" "Beata" "koty" none 0 = OLLAMA_CREATIVE_FALLBACK ∧
    generate_gladiator_attack "Adam" "Beata" "koty" none 0 ∉
      attackFallbackPool "Adam" "Beata" "koty" := by
  exact ⟨by decide, by decide⟩

/-- C7 (amended): `generate_creative_content` absorbs every backend failure
and never raises (its result is always `ok`); on failure the generated
attack for every persona is the fixed non-empty service fallback string,
not the persona pool; the advance endpoint's outcome does not depend on the
oracle at all — in particular a generation failure is never what a caller
observes (in the current program every advance on an existing battle fails
at the blob parse before generation is even attempted, and on a missing
battle it 404s into the 500 wrapper); and in the dead round-generating
continuation past the parse, the advance returns `ok` for every backend
outcome. -/
theorem generation_failure_absorbed :
    (∀ backend : Option String,
      ∃ s, ollama_generate_creative_content backend = .ok s) ∧
    (∀ (attacker defender topic : String) (fallbackIdx : Nat),
      generate_gladiator_attack attacker defender topic none fallbackIdx =
        OLLAMA_CREATIVE_FALLBACK) ∧
    OLLAMA_CREATIVE_FALLBACK ≠ "" ∧
    (∀ (store : List (String × DbRow GladiatorBattleData)) (bid : String)
        (r r' : GladiatorRand),
      next_gladiator_round store bid r = next_gladiator_round store bid r') ∧
    (∀ (store : List (String × DbRow GladiatorBattleData)) (bid : String)
        (row : DbRow GladiatorBattleData) (r : GladiatorRand),
      List.lookup bid store = some row → row.data.current_round < 5 →
        ∃ st res, next_gladiator_round_after_parse store bid r = .ok (st, res)) := by
  refine ⟨fun backend => ⟨_, rfl⟩, ?_, by decide, fun store bid r r' => rfl, ?_⟩
  · intro attacker defender topic fallbackIdx
    show pyStrip OLLAMA_CREATIVE_FALLBACK = OLLAMA_CREATIVE_FALLBACK
    decide
  · intro store bid row r hl hc
    unfold next_gladiator_round_after_parse
    rw [hl]
    dsimp only
    rw [if_neg (by omega)]
    exact ⟨_, _, rfl⟩

/-- C7 (witness): instantiated on the concrete battle `c7Store`: the
endpoint result is identical for a failing and a succeeding backend oracle,
the dead continuation returns `ok` with both backends failing, and the
fallback path for persona Beata yields the non-empty service fallback. -/
theorem generation_failure_absorbed_witness :
    List.lookup "b7" c7Store = some { data := c7Battle, is_active := true, drama_level := 0 } ∧
    c7Battle.current_round < 5 ∧
    (∃ st res, next_gladiator_round_after_parse c7Store "b7" gr0 = .ok (st, res)) ∧
    next_gladiator_round c7Store "b7" gr0 =
      next_gladiator_round c7Store "b7"
        { modIdx := 1, extraIdx := 1, backend1 := some "ok", fallbackIdx1 := 0,
          backend2 := some "ok", fallbackIdx2 := 0 } ∧
    generate_gladiator_attack "Beata" "Adam" "koty" none 3 = OLLAMA_CREATIVE_FALLBACK :=
  ⟨rfl, by decide,
    generation_failure_absorbed.2.2.2.2 c7Store "b7"
      { data := c7Battle, is_active := true, drama_level := 0 } gr0 rfl (by decide),
    generation_failure_absorbed.2.2.2.1 c7Store "b7" gr0
      { modIdx := 1, extraIdx := 1, backend1 := some "ok", fallbackIdx1 := 0,
        backend2 := some "ok", fallbackIdx2 := 0 },
    generation_failure_absorbed.2.1 "Beata" "Adam" "koty" 3⟩

/-! ## Claim C8 -/

/-- C8 (code bug): a request naming a non-existent session returns 404 for
tsunami and UFO (no wrapper), but for gladiator and karaoke the 404 raised
inside the `try` block is caught by `except Exception as e` and re-raised
as `HTTPException(500, str(e))`, so the caller receives a 500 whose detail
embeds the original `404: ...` — not a 404-equivalent, contradicting the
claim for those modes. -/
theorem missing_session_status_codes_bug :
    next_round [] "missing" tr0 = .error ⟨404, "Session not found"⟩ ∧
    tsunami_status [] "missing" = .error ⟨404, "Session not found"⟩ ∧
    vote_best_deception [] "missing" "Adam" = .error ⟨404, "Session not found"⟩ ∧
    next_ufo_round [] "missing" ur0 = .error ⟨404, "Session not found"⟩ ∧
    next_gladiator_round [] "missing" gr0 = .error ⟨500, "404: Battle not found"⟩ ∧
    vote_for_round [] demoReq = .error ⟨500, "404: Battle not found"⟩ ∧
    next_karaoke_performance [] "missing" kr0 =
      .error ⟨500, "404: Karaoke night not found"⟩ :=
  ⟨rfl, rfl, rfl, rfl, rfl, rfl, rfl⟩

/-! ## Claim C10 -/

/-- C10 (code bug): the round-robin performer rotation never runs.  On any
existing night the very first failure is the `json.loads` at line 110 (the
blob is written with `str(dict)`), converted by the blanket handler into a
500 with the store unchanged; even with a parseable blob, line 113 would
raise `KeyError` for the absent `max_songs` key; and even past that check,
selecting any performer other than Adam/Beata (e.g. `Wątpiący`, chosen at
`k = 2` with the default participants) hits the `Ollama_service()`
NameError typo in `generate_wapiacy_performance`.  The selection formula
itself is `participants[k mod len]` as claimed, but it is dead code. -/
theorem karaoke_advance_keyerror_bug :
    next_karaoke_performance kStore "k1" kr0 = .error ⟨500, JSONDecodeErrMsg⟩ ∧
    karaoke_after_parse kStore "k1" kr0 = .error (.err "KeyError: max_songs") ∧
    select_performer (start_karaoke_night { theme := "Pop" } "k1").data = "Adam" ∧
    generate_karaoke_performance "Wątpiący" "Pop" 3 kr0 =
      .error "NameError: Ollama_service is not defined" ∧
    karaoke_advance_rest
      [("k2",
        { data :=
            { night_id := "k2"
              theme := "Pop"
              participants := ["Adam", "Beata", "Wątpiący"]
              performances := []
              current_performance := 2
              audience_votes := []
              special_moments := [] }
          is_active := true
          drama_level := 0.8 })] "k2" 3 kr0 =
      .error (.err "NameError: Ollama_service is not defined") :=
  ⟨rfl, rfl, rfl, rfl, rfl⟩

/-! ## Claim C9 -/

theorem sortByScoreDesc_sorted (l : List (String × ℚ)) :
    List.Sorted scoreGE (sortByScoreDesc l) :=
  List.sorted_insertionSort scoreGE l

theorem sortByScoreDesc_perm (l : List (String × ℚ)) :
    List.Perm (sortByScoreDesc l) l :=
  List.perm_insertionSort scoreGE l

theorem karaokeScore_of_votes (nd : KaraokeNightData) (p : String)
    (vs : List (ℚ × String)) (hv : List.lookup p nd.audience_votes = some vs) :
    karaokeScore nd p = pyRound2 (scoresMean vs) := by
  unfold karaokeScore
  rw [hv]

theorem karaokeScore_of_no_votes (nd : KaraokeNightData) (p : String)
    (hv : List.lookup p nd.audience_votes = none) :
    karaokeScore nd p = 0 := by
  unfold karaokeScore
  rw [hv]

theorem mem_sorted_rankings (nd : KaraokeNightData) (p : String)
    (hp : p ∈ nd.participants) :
    (p, karaokeScore nd p) ∈ sorted_rankings nd := by
  have h1 : (p, karaokeScore nd p) ∈ karaokeRankings nd :=
    List.mem_map_of_mem (fun q => (q, karaokeScore nd q)) hp
  exact ((sortByScoreDesc_perm (karaokeRankings nd)).mem_iff).mpr h1

/-- C9 (code bug): in the program `finish_karaoke_night` always raises at
the `json.loads` of the blob (line 210) and never returns `final_rankings`,
and `audience_vote` fails the same way (line 168), so no score is ever
recorded.  The claimed scoring is exactly what the dead ranking code
(lines 212-239, modelled by `finish_karaoke_after_parse` and
`sorted_rankings`) computes: the mean of the recorded scores rounded to two
decimals per participant, exactly 0.0 without votes, descending order, and
the winner at the head. -/
theorem karaoke_final_rankings_spec :
    (∀ (store : List (String × DbRow KaraokeNightData)) (nid : String)
        (row : DbRow KaraokeNightData), List.lookup nid store = some row →
      finish_karaoke_night store nid = .error (.http ⟨500, JSONDecodeErrMsg⟩)) ∧
    (∀ (store : List (String × DbRow KaraokeNightData)) (req : AudienceVoteRequest)
        (row : DbRow KaraokeNightData), List.lookup req.night_id store = some row →
      audience_vote store req = .error ⟨500, JSONDecodeErrMsg⟩) ∧
    (∀ (store : List (String × DbRow KaraokeNightData)) (nid : String)
        (row : DbRow KaraokeNightData), List.lookup nid store = some row →
      finish_karaoke_after_parse store nid =
        .ok (setEntry store nid { row with is_active := false },
          .nightSummary (sorted_rankings row.data) (karaokeWinner row.data)
            row.data.current_performance)) ∧
    (∀ (nd : KaraokeNightData) (p : String) (vs : List (ℚ × String)),
      p ∈ nd.participants → List.lookup p nd.audience_votes = some vs →
        (p, pyRound2 (scoresMean vs)) ∈ sorted_rankings nd) ∧
    (∀ (nd : KaraokeNightData) (p : String),
      p ∈ nd.participants → List.lookup p nd.audience_votes = none →
        (p, (0 : ℚ)) ∈ sorted_rankings nd) ∧
    (∀ nd : KaraokeNightData, List.Sorted scoreGE (sorted_rankings nd)) ∧
    (∀ nd : KaraokeNightData, nd.participants ≠ [] →
      ∃ top rest, sorted_rankings nd = top :: rest ∧ karaokeWinner nd = top.1 ∧
        ∀ x ∈ sorted_rankings nd, x.2 ≤ top.2) := by
  refine ⟨?_, ?_, ?_, ?_, ?_, fun nd => sortByScoreDesc_sorted (karaokeRankings nd), ?_⟩
  · intro store nid row hl
    unfold finish_karaoke_night
    rw [hl]
  · intro store req row hl
    unfold audience_vote wrap500 audience_vote_body
    rw [hl]
    rfl
  · intro store nid row hl
    unfold finish_karaoke_after_parse
    rw [hl]
  · intro nd p vs hp hv
    have h := mem_sorted_rankings nd p hp
    rwa [karaokeScore_of_votes nd p vs hv] at h
  · intro nd p hp hv
    have h := mem_sorted_rankings nd p hp
    rwa [karaokeScore_of_no_votes nd p hv] at h
  · intro nd hne
    have hlen : (sorted_rankings nd).length = nd.participants.length := by
      rw [show sorted_rankings nd = sortByScoreDesc (karaokeRankings nd) from rfl,
        (sortByScoreDesc_perm (karaokeRankings nd)).length_eq]
      simp [karaokeRankings]
    cases hsr : sorted_rankings nd with
    | nil =>
        exfalso
        rw [hsr] at hlen
        simp only [List.length_nil] at hlen
        exact hne (List.length_eq_zero.mp hlen.symm)
    | cons top rest =>
        refine ⟨top, rest, rfl, ?_, ?_⟩
        · unfold karaokeWinner
          rw [hsr]
        · intro x hx
          rcases List.mem_cons.mp hx with h | h
          · exact le_of_eq (congrArg Prod.snd h)
          · have hs := sortByScoreDesc_sorted (karaokeRankings nd)
            rw [show sortByScoreDesc (karaokeRankings nd) = sorted_rankings nd from rfl,
              hsr] at hs
            exact List.rel_of_sorted_cons hs x h

/-- C9 (witness): the theorem instantiated on a concrete stored night with
one participant and one recorded score of 8: the real finish and vote calls
fail at the parse, while the dead ranking code produces the summary. -/
theorem karaoke_final_rankings_spec_witness :
    List.lookup "k9" c9Store = some { data := c9Night, is_active := true, drama_level := 0.8 } ∧
    finish_karaoke_night c9Store "k9" = .error (.http ⟨500, JSONDecodeErrMsg⟩) ∧
    audience_vote c9Store
      { night_id := "k9", performance_id := "p1", performer := "Adam",
        score := 8, voter_id := "u1" } = .error ⟨500, JSONDecodeErrMsg⟩ ∧
    "Adam" ∈ c9Night.participants ∧
    List.lookup "Adam" c9Night.audience_votes = some [(8, "u1")] ∧
    c9Night.participants ≠ [] ∧
    finish_karaoke_after_parse c9Store "k9" =
      .ok (setEntry c9Store "k9"
          { data := c9Night, is_active := false, drama_level := 0.8 },
        .nightSummary (sorted_rankings c9Night) (karaokeWinner c9Night)
          c9Night.current_performance) ∧
    (("Adam" : String), pyRound2 (scoresMean [(8, "u1")])) ∈ sorted_rankings c9Night ∧
    (∃ top rest, sorted_rankings c9Night = top :: rest ∧ karaokeWinner c9Night = top.1 ∧
      ∀ x ∈ sorted_rankings c9Night, x.2 ≤ top.2) :=
  ⟨rfl,
    karaoke_final_rankings_spec.1 c9Store "k9"
      { data := c9Night, is_active := true, drama_level := 0.8 } rfl,
    karaoke_final_rankings_spec.2.1 c9Store
      { night_id := "k9", performance_id := "p1", performer := "Adam",
        score := 8, voter_id := "u1" }
      { data := c9Night, is_active := true, drama_level := 0.8 } rfl,
    by decide, rfl, by decide,
    karaoke_final_rankings_spec.2.2.1 c9Store "k9"
      { data := c9Night, is_active := true, drama_level := 0.8 } rfl,
    karaoke_final_rankings_spec.2.2.2.1 c9Night "Adam" [(8, "u1")] (by decide) rfl,
    karaoke_final_rankings_spec.2.2.2.2.2.2 c9Night (by decide)⟩
